import Mathlib

/-!
Shallow embedding of the vocaboost repository's dataset-regeneration and
model-training scripts (`src/regenerate_dataset.py`,
`src/training/train_json_model.py`, `src/training/train_model.py`,
`src/training/train_tflite_model.py`), together with theorems settling the
frozen claims about them.

Python strings are modelled as Lean `String`, with the Python string
methods the scripts use implemented here by structural recursion over the
character list (the scripts branch only on ASCII keywords).  Python `dict`s are
modelled as association lists with insertion-order-preserving update, as
CPython guarantees.  The numpy/sklearn cosine-similarity matrix is third-party
library code, so it enters the embedding as an abstract rational-valued
matrix parameter; everything this repository computes from it is embedded
exactly.
-/

/-- Python `needle in haystack` substring test, on character lists. -/
def strContainsAux (needle : List Char) : List Char → Bool
  | [] => needle.isEmpty
  | c :: rest => needle.isPrefixOf (c :: rest) || strContainsAux needle rest

/-- Python `needle in haystack` on strings. -/
def strContains (haystack needle : String) : Bool :=
  strContainsAux needle.data haystack.data

/-- Python truthiness of a string: non-empty. -/
def truthy (s : String) : Bool := s ≠ ""

/-- Python `str.lower()` (the scripts branch only on ASCII keywords). -/
def pyLower (s : String) : String := String.mk (s.data.map Char.toLower)

/-- Python `str.strip()`: drop whitespace from both ends. -/
def pyStrip (s : String) : String :=
  String.mk (((s.data.dropWhile Char.isWhitespace).reverse.dropWhile
    Char.isWhitespace).reverse)

/-- Python `s.startswith(p)`. -/
def pyStartsWith (s p : String) : Bool := p.data.isPrefixOf s.data

/-- Python `s.endswith(p)`. -/
def pyEndsWith (s p : String) : Bool := p.data.isSuffixOf s.data

/-- Python `str.replace(old, new)` on character lists: all occurrences, left
to right, non-overlapping.  The fuel argument (instantiated with the list
length, which bounds the number of steps whenever `old` is non-empty, as at
every call site) keeps the recursion structural. -/
def replaceFuel (old new : List Char) : Nat → List Char → List Char
  | 0, l => l
  | fuel + 1, l =>
    match l with
    | [] => []
    | c :: rest =>
      if old.isPrefixOf l then new ++ replaceFuel old new fuel (l.drop old.length)
      else c :: replaceFuel old new fuel rest

/-- Python `s.replace(old, new)` (only ever called with non-empty `old`). -/
def pyReplace (s old new : String) : String :=
  String.mk (replaceFuel old.data new.data s.data.length s.data)

/-- Python `str.split()` with no argument: split on whitespace runs,
dropping empty pieces (the accumulator holds the current word reversed). -/
def splitWsAcc : List Char → List Char → List String
  | [], acc => if acc.isEmpty then [] else [String.mk acc.reverse]
  | c :: rest, acc =>
    if c.isWhitespace then
      if acc.isEmpty then splitWsAcc rest []
      else String.mk acc.reverse :: splitWsAcc rest []
    else splitWsAcc rest (c :: acc)

/-- Python `str.split()` with no argument. -/
def pySplit (s : String) : List String := splitWsAcc s.data []

/-- Python `str.capitalize()`: first character uppercased, the rest
lowercased. -/
def pyCapitalize (s : String) : String :=
  match s.data with
  | [] => ""
  | c :: rest => String.mk (c.toUpper :: rest.map Char.toLower)

/-- Python `s[-1]` on a string, as a one-character string
(used only under a length guard in the source). -/
def lastStr (s : String) : String := s.takeRight 1

/-- Python `s[-2]` on a string, as a one-character string
(used only under a length guard in the source). -/
def sndLastStr (s : String) : String := (s.dropRight 1).takeRight 1

/-- Python `s.split('/')[0]`: the prefix before the first `/`. -/
def splitSlashHead (s : String) : String := String.mk (s.data.takeWhile (· ≠ '/'))

/-- Python `s.split('(')[0]`: the prefix before the first `(`. -/
def splitParenHead (s : String) : String := String.mk (s.data.takeWhile (· ≠ '('))

/-- `src/regenerate_dataset.py` lines 19-26: strip a known verb prefix. -/
def get_base_form (word : String) : String :=
  let word_lower := pyLower word
  match ["mo", "nag", "gi", "mag", "na", "ka", "maka", "maka-"].find?
      (fun p => pyStartsWith word_lower p) with
  | some p => word_lower.drop p.length
  | none => word_lower

/-- One generated example: (bisaya sentence, english translation, tagalog
translation). -/
abbrev Ex := String × String × String

/-- The three difficulty tiers returned by the generator. -/
abbrev Triples := Ex × Ex × Ex

/-- `src/regenerate_dataset.py` lines 44-48 (`make_example`, nested inside
`generate_examples`): build one example triple, defaulting the Tagalog slot
to the empty string when falsy. -/
def make_example (bisaya_sent english_sent tagalog_sent : String) : Ex :=
  (bisaya_sent, english_sent, if truthy tagalog_sent then tagalog_sent else "")

/-- Lines 90-95: generic greeting/expression templates. -/
def greetingGenericExamples (bisaya tagalog english : String) : Triples :=
  let eng_clean := pyStrip (splitParenHead (splitSlashHead english))
  let tag_clean := if truthy tagalog then tagalog else ""
  (make_example (bisaya ++ ".") (eng_clean ++ ".")
      (if truthy tag_clean then tag_clean ++ "." else ""),
   make_example (bisaya ++ ", mahimo ba?") (eng_clean ++ ", is it possible?")
      (if truthy tag_clean then tag_clean ++ ", posible ba?" else ""),
   make_example (bisaya ++ ", mahimo ba nimo ko tabangan?")
      (eng_clean ++ ", can you help me?")
      (if truthy tag_clean then tag_clean ++ ", maaari mo ba akong tulungan?" else ""))

/-- Lines 50-95: the greeting/expression/response branch. -/
def greetingExamples (bisaya tagalog english : String) : Triples :=
  let bisaya_lower := pyLower bisaya
  if strContains bisaya_lower "kumusta" then
    (make_example "Kumusta ka?" "How are you?" "Kumusta ka?",
     make_example "Kumusta na ka karon?" "How are you now?" "Kumusta ka na ngayon?",
     make_example "Kumusta na ka? Maayo ra ba?" "How are you? Are you doing well?"
       "Kumusta ka na? Mabuti ba?")
  else if strContains bisaya_lower "maayong" then
    let eng_clean := pyStrip (splitSlashHead english)
    let tag_clean := if truthy tagalog then tagalog else ""
    let bparts := pySplit bisaya
    let blast := if bparts.length > 1 then bparts.getLastD "" else ""
    let eparts := pySplit eng_clean
    let elast := if eparts.length > 1 then eparts.getLastD "" else ""
    (make_example (bisaya ++ ".") (eng_clean ++ ".")
        (if truthy tag_clean then tag_clean ++ "." else ""),
     make_example ("Maayong " ++ blast ++ " sa tanan!")
        ("Good " ++ elast ++ " to everyone!")
        (if truthy tag_clean then tag_clean ++ " sa lahat!" else ""),
     make_example ("Maayong " ++ blast ++ "! Kumusta ang imong adlaw?")
        ("Good " ++ elast ++ "! How is your day?")
        (if truthy tag_clean then tag_clean ++ "! Kumusta ang iyong araw?" else ""))
  else if strContains bisaya_lower "salamat" then
    (make_example "Salamat." "Thank you." "Salamat.",
     make_example "Daghang salamat sa imong tabang." "Thank you very much for your help."
       "Maraming salamat sa iyong tulong.",
     make_example "Daghang salamat kaayo sa tanan nga imong nahimo."
       "Thank you very much for everything you did."
       "Maraming salamat sa lahat ng iyong ginawa.")
  else if strContains bisaya_lower "palihug" then
    (make_example "Palihug." "Please." "Pakiusap.",
     make_example "Palihug, tabangi ko." "Please, help me." "Pakiusap, tulungan mo ako.",
     make_example "Palihug, mahimo ba nimo ko tabangan karon?" "Please, can you help me now?"
       "Pakiusap, maaari mo ba akong tulungan ngayon?")
  else if strContains bisaya_lower "pasaylo" then
    (make_example "Pasaylo." "Sorry." "Paumanhin.",
     make_example "Pasaylo sa akong nahimo." "Sorry for what I did." "Paumanhin sa aking ginawa.",
     make_example "Pasaylo kaayo sa tanan nga kasaypanan." "I am very sorry for all the mistakes."
       "Paumanhin sa lahat ng pagkakamali.")
  else if ["oo", "yes"].contains bisaya_lower then
    (make_example "Oo." "Yes." "Oo.",
     make_example "Oo, gusto ko." "Yes, I want to." "Oo, gusto ko.",
     make_example "Oo, sigurado ko nga gusto ko." "Yes, I am sure I want to."
       "Oo, sigurado ako na gusto ko.")
  else if ["dili", "no"].contains bisaya_lower then
    (make_example "Dili." "No." "Hindi.",
     make_example "Dili ko gusto." "I don\x27t want to." "Ayaw ko.",
     make_example "Dili ko gusto nga moadto didto." "I don\x27t want to go there."
       "Ayaw kong pumunta doon.")
  else greetingGenericExamples bisaya tagalog english

/-- Lines 132-151: generic verb templates (prefix stripping plus the ad hoc
English past-tense heuristic). -/
def verbGenericExamples (bisaya tagalog english : String) : Triples :=
  let bisaya_lower := pyLower bisaya
  let base := get_base_form bisaya
  let base_verb :=
    if base ≠ bisaya_lower then base
    else pyReplace (pyReplace (pyReplace (pyReplace bisaya_lower "mo" "") "mag" "") "nag" "") "gi" ""
  let english_verb := pyLower (pyStrip (splitParenHead (splitSlashHead english)))
  let past_tense :=
    if pyEndsWith english_verb "e" then english_verb ++ "d"
    else if pyEndsWith english_verb "y" then english_verb.dropRight 1 ++ "ied"
    else if english_verb.length > 1 && !(strContains "aeiou" (lastStr english_verb))
        && strContains "aeiou" (sndLastStr english_verb) then
      english_verb ++ lastStr english_verb ++ "ed"
    else english_verb ++ "ed"
  let tag_verb := if truthy tagalog then pyLower tagalog else ""
  let tag_cap := pyCapitalize tag_verb
  (make_example ("Gusto ko mo" ++ base_verb ++ ".") ("I want to " ++ english_verb ++ ".")
      (if truthy tag_verb then "Gusto kong " ++ tag_verb ++ "." else ""),
   make_example ("Mo" ++ base_verb ++ " ko karon.") ("I will " ++ english_verb ++ " now.")
      (if truthy tag_verb then tag_cap ++ " ako ngayon." else ""),
   make_example ("Gi" ++ base_verb ++ " nako ang tanan ganina.")
      ("I " ++ past_tense ++ " everything earlier.")
      (if truthy tag_verb then tag_cap ++ " ko ang lahat kanina." else ""))

/-- Lines 97-151: the verb branch. -/
def verbExamples (bisaya tagalog english : String) : Triples :=
  let bisaya_lower := pyLower bisaya
  let english_lower := pyLower english
  if strContains bisaya_lower "kaon" || strContains english_lower "eat" then
    (make_example "Gusto ko mokaon." "I want to eat." "Gusto kong kumain.",
     make_example "Nakaon na ba ka?" "Have you eaten already?" "Kumain ka na ba?",
     make_example "Gikaon nako ang tinapay ganina." "I ate the bread earlier."
       "Kumain ako ng tinapay kanina.")
  else if strContains bisaya_lower "tulog" || strContains english_lower "sleep" then
    (make_example "Gusto ko matulog." "I want to sleep." "Gusto kong matulog.",
     make_example "Natulog na ba ka?" "Have you slept already?" "Natulog ka na ba?",
     make_example "Kinahanglan nga matulog ka aron makapahuway." "You need to sleep to rest."
       "Kailangan mong matulog para makapahinga.")
  else if strContains bisaya_lower "basa" || strContains english_lower "read" then
    (make_example "Gusto ko mobasa." "I want to read." "Gusto kong magbasa.",
     make_example "Nagbasa ko ug libro." "I am reading a book." "Nagbabasa ako ng libro.",
     make_example "Gibasa nako ang libro ganina." "I read the book earlier."
       "Binasa ko ang libro kanina.")
  else if strContains bisaya_lower "sulat" || strContains english_lower "write" then
    (make_example "Gusto ko mosulat." "I want to write." "Gusto kong sumulat.",
     make_example "Nagsulat ko ug sulat." "I am writing a letter." "Nagsusulat ako ng sulat.",
     make_example "Gisulat nako ang sulat kagahapon." "I wrote the letter yesterday."
       "Sinulat ko ang sulat kahapon.")
  else if strContains bisaya_lower "palit" || strContains english_lower "buy" then
    (make_example "Gusto ko mopalit." "I want to buy." "Gusto kong bumili.",
     make_example "Mopalit ko ug tinapay." "I will buy bread." "Bibili ako ng tinapay.",
     make_example "Gipalit nako ang tinapay sa tindahan." "I bought the bread at the store."
       "Binili ko ang tinapay sa tindahan.")
  else if strContains bisaya_lower "lakaw" || strContains english_lower "walk" then
    (make_example "Gusto ko molakaw." "I want to walk." "Gusto kong maglakad.",
     make_example "Naglakaw ko sa dalan." "I am walking on the road." "Naglalakad ako sa kalsada.",
     make_example "Naglakaw ko gikan sa balay padulong sa eskwelahan."
       "I walked from home to school."
       "Naglalakad ako mula sa bahay papunta sa paaralan.")
  else if strContains bisaya_lower "dagan" || strContains english_lower "run" then
    (make_example "Gusto ko modagan." "I want to run." "Gusto kong tumakbo.",
     make_example "Nagdagan ko sa parke." "I am running in the park." "Tumatakbo ako sa parke.",
     make_example "Nagdagan ko aron makab-ot ang bus." "I ran to catch the bus."
       "Tumakbo ako para mahabol ang bus.")
  else if strContains bisaya_lower "adto" || strContains english_lower "go" then
    (make_example "Moadto ko." "I will go." "Pupunta ako.",
     make_example "Moadto ko sa balay." "I will go to the house." "Pupunta ako sa bahay.",
     make_example "Moadto ko sa balay sa akong higala." "I will go to my friend\x27s house."
       "Pupunta ako sa bahay ng aking kaibigan.")
  else verbGenericExamples bisaya tagalog english

/-- Lines 191-195: the fully generic noun templates. -/
def nounPlainExamples (bisaya tagalog english : String) : Triples :=
  let english_clean := pyLower (pyStrip (splitParenHead (splitSlashHead english)))
  let tag_clean := if truthy tagalog then pyLower tagalog else ""
  (make_example ("Gusto ko ug " ++ bisaya ++ ".") ("I want " ++ english_clean ++ ".")
      (if truthy tag_clean then "Gusto ko ng " ++ tag_clean ++ "." else ""),
   make_example ("Naa koy " ++ bisaya ++ " sa balay.")
      ("I have " ++ english_clean ++ " at home.")
      (if truthy tag_clean then "May " ++ tag_clean ++ " ako sa bahay." else ""),
   make_example ("Ang " ++ bisaya ++ " nga gipalit nako kay nindot kaayo.")
      ("The " ++ english_clean ++ " I bought is very beautiful.")
      (if truthy tag_clean then "Ang " ++ tag_clean ++ " na binili ko ay napakaganda." else ""))

/-- Lines 153-195: the noun branch. -/
def nounExamples (bisaya tagalog english : String) : Triples :=
  let bisaya_lower := pyLower bisaya
  let english_lower := pyLower english
  if strContains bisaya_lower "tubig" || strContains english_lower "water" then
    (make_example "Gusto ko ug tubig." "I want water." "Gusto ko ng tubig.",
     make_example "Naa koy tubig sa balay." "I have water at home." "May tubig ako sa bahay.",
     make_example "Gipalit nako ang tubig sa tindahan." "I bought the water at the store."
       "Binili ko ang tubig sa tindahan.")
  else if strContains bisaya_lower "pagkaon" || strContains english_lower "food" then
    (make_example "Gusto ko ug pagkaon." "I want food." "Gusto ko ng pagkain.",
     make_example "Naa koy pagkaon sa lamesa." "I have food on the table."
       "May pagkain ako sa mesa.",
     make_example "Gipangandam nako ang pagkaon para sa tanan." "I prepared the food for everyone."
       "Inihanda ko ang pagkain para sa lahat.")
  else if strContains bisaya_lower "balay" || strContains english_lower "house" then
    (make_example "Naa koy balay." "I have a house." "May bahay ako.",
     make_example "Ang balay kay dako." "The house is big." "Malaki ang bahay.",
     make_example "Ang balay nga gipalit nako kay nindot kaayo."
       "The house I bought is very beautiful."
       "Ang bahay na binili ko ay napakaganda.")
  else if strContains bisaya_lower "libro" || strContains english_lower "book" then
    (make_example "Naa koy libro." "I have a book." "May libro ako.",
     make_example "Nagbasa ko ug libro." "I am reading a book." "Nagbabasa ako ng libro.",
     make_example "Ang libro nga gibasa nako kay nindot kaayo."
       "The book I read is very beautiful."
       "Ang libro na binasa ko ay napakaganda.")
  else if strContains bisaya_lower "amahan" || strContains english_lower "father" then
    (make_example "Siya ang akong amahan." "He is my father." "Siya ang aking ama.",
     make_example "Ang akong amahan kay maayo kaayo." "My father is very good."
       "Ang aking ama ay napakabuti.",
     make_example "Ang akong amahan nga nagtrabaho sa opisina kay kusgan kaayo."
       "My father who works at the office is very strong."
       "Ang aking ama na nagtatrabaho sa opisina ay napakalakas.")
  else if strContains bisaya_lower "inahan" || strContains english_lower "mother" then
    (make_example "Siya ang akong inahan." "She is my mother." "Siya ang aking ina.",
     make_example "Ang akong inahan kay gwapa kaayo." "My mother is very beautiful."
       "Ang aking ina ay napakaganda.",
     make_example "Ang akong inahan nga nagluto sa kusina kay maayo kaayo."
       "My mother who cooks in the kitchen is very good."
       "Ang aking ina na nagluluto sa kusina ay napakabuti.")
  else
    let english_lower_check := pyLower english
    if strContains bisaya_lower "adlaw"
        || (strContains english_lower_check "day" && strContains english_lower_check "sun") then
      (make_example "Maayong adlaw." "Good day." "Magandang araw.",
       make_example "Init kaayo ang adlaw karon." "The sun is very hot today."
         "Napakainit ng araw ngayon.",
       make_example "Ang adlaw nga nag-init sa balay kay init kaayo."
         "The sun that heats the house is very hot."
         "Ang araw na nagpapainit sa bahay ay napakainit.")
    else if strContains bisaya_lower "bulan"
        || (strContains english_lower_check "month" && strContains english_lower_check "moon") then
      (make_example "Maayong bulan." "Good month." "Magandang buwan.",
       make_example "Nindot kaayo ang bulan karon." "The moon is very beautiful tonight."
         "Napakaganda ng buwan ngayon.",
       make_example "Ang bulan nga nagdan-ag sa dalan kay nindot kaayo."
         "The moon that lights the road is very beautiful."
         "Ang buwan na nagliliwanag sa kalsada ay napakaganda.")
    else nounPlainExamples bisaya tagalog english

/-- Lines 263-269: generic adjective templates. -/
def adjectiveGenericExamples (bisaya tagalog english : String) : Triples :=
  let english_clean := pyLower (pyStrip (splitParenHead (splitSlashHead english)))
  let tag_clean := if truthy tagalog then pyLower tagalog else ""
  (make_example (bisaya ++ " kaayo.") ("Very " ++ english_clean ++ ".")
      (if truthy tag_clean then "Napaka" ++ tag_clean ++ "." else ""),
   make_example ("Ang balay kay " ++ bisaya ++ " kaayo.")
      ("The house is very " ++ english_clean ++ ".")
      (if truthy tag_clean then "Napaka" ++ tag_clean ++ " ng bahay." else ""),
   make_example ("Ang balay nga gipalit nako kay " ++ bisaya ++ " kaayo.")
      ("The house I bought is very " ++ english_clean ++ ".")
      (if truthy tag_clean then "Ang bahay na binili ko ay napaka" ++ tag_clean ++ "." else ""))

/-- Lines 197-269: the adjective branch. -/
def adjectiveExamples (bisaya tagalog english : String) : Triples :=
  let bisaya_lower := pyLower bisaya
  let english_lower := pyLower english
  if strContains bisaya_lower "wala" || strContains english_lower "none"
      || strContains english_lower "nothing" then
    (make_example "Wala ko." "I have nothing." "Wala ako.",
     make_example "Wala koy kwarta." "I have no money." "Wala akong pera.",
     make_example "Wala koy kwarta nga magasto karon." "I have no money to spend now."
       "Wala akong pera na magagastos ngayon.")
  else if strContains bisaya_lower "daghan" || strContains english_lower "many"
      || strContains english_lower "much" then
    (make_example "Daghan kaayo." "A lot." "Marami.",
     make_example "Daghan kaayo ang tawo." "There are many people." "Maraming tao.",
     make_example "Daghan kaayo ang tawo nga nakaon sa restaurant."
       "There are many people eating at the restaurant."
       "Maraming tao na kumakain sa restaurant.")
  else if strContains bisaya_lower "maayo" || strContains english_lower "good" then
    (make_example "Maayo kaayo." "Very good." "Napakabuti.",
     make_example "Ang pagkaon kay maayo kaayo." "The food is very good."
       "Napakasarap ng pagkain.",
     make_example "Ang pagkaon nga gipangandam nako kay maayo kaayo sa tanan."
       "The food I prepared is very good for everyone."
       "Ang pagkain na inihanda ko ay napakasarap para sa lahat.")
  else if strContains bisaya_lower "gwapa"
      || (strContains english_lower "beautiful" && strContains english_lower "female") then
    (make_example "Gwapa kaayo." "Very beautiful." "Napakaganda.",
     make_example "Ang babaye kay gwapa kaayo." "The woman is very beautiful."
       "Napakaganda ng babae.",
     make_example "Ang babaye nga naglakaw sa dalan kay gwapa kaayo."
       "The woman walking on the road is very beautiful."
       "Ang babae na naglalakad sa kalsada ay napakaganda.")
  else if strContains bisaya_lower "gwapo" || strContains english_lower "handsome" then
    (make_example "Gwapo kaayo." "Very handsome." "Napakagwapo.",
     make_example "Ang lalaki kay gwapo kaayo." "The man is very handsome."
       "Napakagwapo ng lalaki.",
     make_example "Ang lalaki nga naglakaw sa dalan kay gwapo kaayo."
       "The man walking on the road is very handsome."
       "Ang lalaki na naglalakad sa kalsada ay napakagwapo.")
  else if strContains bisaya_lower "dako" || strContains english_lower "big" then
    (make_example "Dako kaayo." "Very big." "Napakalaki.",
     make_example "Ang balay kay dako kaayo." "The house is very big." "Napakalaki ng bahay.",
     make_example "Ang balay nga gipalit nako kay dako kaayo ug nindot."
       "The house I bought is very big and beautiful."
       "Ang bahay na binili ko ay napakalaki at napakaganda.")
  else if strContains bisaya_lower "gamay" || strContains english_lower "small" then
    (make_example "Gamay kaayo." "Very small." "Napakaliit.",
     make_example "Ang bata kay gamay kaayo." "The child is very small." "Napakaliit ng bata.",
     make_example "Ang bata nga nagdula sa parke kay gamay kaayo."
       "The child playing in the park is very small."
       "Ang bata na naglalaro sa parke ay napakaliit.")
  else if strContains bisaya_lower "init" || strContains english_lower "hot" then
    (make_example "Init kaayo." "Very hot." "Napakainit.",
     make_example "Ang tubig kay init kaayo." "The water is very hot." "Napakainit ng tubig.",
     make_example "Ang tubig nga gipainit nako kay init kaayo karon."
       "The water I heated is very hot now."
       "Ang tubig na pinainit ko ay napakainit ngayon.")
  else if strContains bisaya_lower "bugnaw" || strContains english_lower "cold" then
    (make_example "Bugnaw kaayo." "Very cold." "Napakalamig.",
     make_example "Ang tubig kay bugnaw kaayo." "The water is very cold." "Napakalamig ng tubig.",
     make_example "Ang tubig nga gikan sa gripo kay bugnaw kaayo."
       "The water from the faucet is very cold."
       "Ang tubig na galing sa gripo ay napakalamig.")
  else if strContains bisaya_lower "tibuok" || strContains english_lower "whole"
      || strContains english_lower "complete" then
    (make_example "Tibuok ang libro." "The whole book." "Buong libro.",
     make_example "Gibasa nako ang tibuok nga libro." "I read the whole book."
       "Binasa ko ang buong libro.",
     make_example "Gibasa nako ang tibuok nga libro sulod sa usa ka adlaw."
       "I read the whole book within one day."
       "Binasa ko ang buong libro sa loob ng isang araw.")
  else if strContains bisaya_lower "bahin" || strContains english_lower "part" then
    (make_example "Bahin lang." "Just a part." "Bahagi lang.",
     make_example "Gibasa nako ang bahin sa libro." "I read part of the book."
       "Binasa ko ang bahagi ng libro.",
     make_example "Gibasa nako ang bahin sa libro nga importante."
       "I read the important part of the book."
       "Binasa ko ang mahalagang bahagi ng libro.")
  else if strContains bisaya_lower "bag-o" || strContains english_lower "new" then
    (make_example "Bag-o kaayo." "Very new." "Napakabago.",
     make_example "Ang libro kay bag-o kaayo." "The book is very new." "Napakabago ng libro.",
     make_example "Ang libro nga gipalit nako kay bag-o kaayo ug nindot."
       "The book I bought is very new and beautiful."
       "Ang libro na binili ko ay napakabago at napakaganda.")
  else if strContains bisaya_lower "karaan" || strContains english_lower "old" then
    (make_example "Karaan kaayo." "Very old." "Napakaluma.",
     make_example "Ang libro kay karaan kaayo." "The book is very old." "Napakaluma ng libro.",
     make_example "Ang libro nga gikan sa library kay karaan kaayo."
       "The book from the library is very old."
       "Ang libro na galing sa library ay napakaluma.")
  else if strContains bisaya_lower "taas" || strContains english_lower "tall"
      || strContains english_lower "high" then
    (make_example "Taas kaayo." "Very tall." "Napakataas.",
     make_example "Ang tawo kay taas kaayo." "The person is very tall." "Napakataas ng tao.",
     make_example "Ang tawo nga naglakaw sa dalan kay taas kaayo."
       "The person walking on the road is very tall."
       "Ang tao na naglalakad sa kalsada ay napakataas.")
  else if strContains bisaya_lower "mubo" || strContains english_lower "short"
      || strContains english_lower "low" then
    (make_example "Mubo kaayo." "Very short." "Napakababa.",
     make_example "Ang tawo kay mubo kaayo." "The person is very short." "Napakababa ng tao.",
     make_example "Ang tawo nga naglakaw sa dalan kay mubo kaayo."
       "The person walking on the road is very short."
       "Ang tao na naglalakad sa kalsada ay napakababa.")
  else if strContains bisaya_lower "lapad" || strContains english_lower "wide" then
    (make_example "Lapad kaayo." "Very wide." "Napakalapad.",
     make_example "Ang dalan kay lapad kaayo." "The road is very wide." "Napakalapad ng kalsada.",
     make_example "Ang dalan nga gipangita nako kay lapad kaayo."
       "The road I am looking for is very wide."
       "Ang kalsada na hinahanap ko ay napakalapad.")
  else adjectiveGenericExamples bisaya tagalog english

/-- Lines 281-286: generic number templates. -/
def numberGenericExamples (bisaya tagalog english : String) : Triples :=
  let english_clean := pyLower (pyStrip (splitParenHead (splitSlashHead english)))
  let tag_clean := if truthy tagalog then pyLower tagalog else ""
  (make_example ("Naa koy " ++ bisaya ++ " ka libro.")
      ("I have " ++ english_clean ++ " books.")
      (if truthy tag_clean then "May " ++ tag_clean ++ " libro ako." else ""),
   make_example ("Gusto ko ug " ++ bisaya ++ " ka libro.")
      ("I want " ++ english_clean ++ " books.")
      (if truthy tag_clean then "Gusto ko ng " ++ tag_clean ++ " libro." else ""),
   make_example ("Gipalit nako ang " ++ bisaya ++ " ka libro sa tindahan.")
      ("I bought " ++ english_clean ++ " books at the store.")
      (if truthy tag_clean then "Binili ko ang " ++ tag_clean ++ " libro sa tindahan." else ""))

/-- Lines 271-286: the number branch. -/
def numberExamples (bisaya tagalog english : String) : Triples :=
  let bisaya_lower := pyLower bisaya
  let english_lower := pyLower english
  if bisaya_lower = "usa" || strContains english_lower "one" then
    (make_example "Naa koy usa ka libro." "I have one book." "May isang libro ako.",
     make_example "Gusto ko ug usa ka libro." "I want one book." "Gusto ko ng isang libro.",
     make_example "Gipalit nako ang usa ka libro sa tindahan." "I bought one book at the store."
       "Binili ko ang isang libro sa tindahan.")
  else if bisaya_lower = "duha" || strContains english_lower "two" then
    (make_example "Naa koy duha ka libro." "I have two books." "May dalawang libro ako.",
     make_example "Gusto ko ug duha ka libro." "I want two books." "Gusto ko ng dalawang libro.",
     make_example "Gipalit nako ang duha ka libro sa tindahan." "I bought two books at the store."
       "Binili ko ang dalawang libro sa tindahan.")
  else numberGenericExamples bisaya tagalog english

/-- Lines 302-307: generic time templates. -/
def timeGenericExamples (bisaya tagalog english : String) : Triples :=
  let english_clean := pyLower (pyStrip (splitParenHead (splitSlashHead english)))
  let tag_clean := if truthy tagalog then pyLower tagalog else ""
  let eng_cap := pyCapitalize english_clean
  let tag_cap := pyCapitalize tag_clean
  (make_example (bisaya ++ " ko moadto.") ("I will go " ++ english_clean ++ ".")
      (if truthy tag_clean then "Pupunta ako " ++ tag_clean ++ "." else ""),
   make_example (bisaya ++ ", moadto ko sa balay.")
      (eng_cap ++ ", I will go to the house.")
      (if truthy tag_clean then tag_cap ++ ", pupunta ako sa bahay." else ""),
   make_example (bisaya ++ ", moadto ko sa balay sa akong higala.")
      (eng_cap ++ ", I will go to my friend\x27s house.")
      (if truthy tag_clean then tag_cap ++ ", pupunta ako sa bahay ng aking kaibigan." else ""))

/-- Lines 288-307: the time branch. -/
def timeExamples (bisaya tagalog english : String) : Triples :=
  let bisaya_lower := pyLower bisaya
  let english_lower := pyLower english
  if strContains bisaya_lower "karon" || strContains english_lower "now" then
    (make_example "Karon ko moadto." "I will go now." "Pupunta ako ngayon.",
     make_example "Karon nga adlaw, moadto ko." "Today, I will go." "Ngayon, pupunta ako.",
     make_example "Karon nga adlaw, moadto ko sa balay sa akong higala."
       "Today, I will go to my friend\x27s house."
       "Ngayon, pupunta ako sa bahay ng aking kaibigan.")
  else if strContains bisaya_lower "ugma" || strContains english_lower "tomorrow" then
    (make_example "Ugma ko moadto." "I will go tomorrow." "Pupunta ako bukas.",
     make_example "Ugma, moadto ko sa balay." "Tomorrow, I will go to the house."
       "Bukas, pupunta ako sa bahay.",
     make_example "Ugma, moadto ko sa balay sa akong higala aron magdula."
       "Tomorrow, I will go to my friend\x27s house to play."
       "Bukas, pupunta ako sa bahay ng aking kaibigan para maglaro.")
  else if strContains bisaya_lower "gahapon" || strContains english_lower "yesterday" then
    (make_example "Gahapon ko moadto." "I went yesterday." "Pumunta ako kahapon.",
     make_example "Gahapon, nakaon ko sa balay." "Yesterday, I ate at home."
       "Kahapon, kumain ako sa bahay.",
     make_example "Gahapon, nakaon ko sa balay sa akong higala ug nagdula mi."
       "Yesterday, I ate at my friend\x27s house and we played."
       "Kahapon, kumain ako sa bahay ng aking kaibigan at naglaro kami.")
  else timeGenericExamples bisaya tagalog english

/-- Lines 327-332: generic question templates. -/
def questionGenericExamples (bisaya tagalog english : String) : Triples :=
  let english_clean := pyStrip (splitParenHead (splitSlashHead english))
  let tag_clean := if truthy tagalog then tagalog else ""
  (make_example (bisaya ++ "?") (english_clean ++ "?")
      (if truthy tag_clean then tag_clean ++ "?" else ""),
   make_example (bisaya ++ " ka moadto?") (english_clean ++ " are you going?")
      (if truthy tag_clean then tag_clean ++ " ka pupunta?" else ""),
   make_example (bisaya ++ " ka moadto sa balay?")
      (english_clean ++ " are you going to the house?")
      (if truthy tag_clean then tag_clean ++ " ka pupunta sa bahay?" else ""))

/-- Lines 309-332: the question branch. -/
def questionExamples (bisaya tagalog english : String) : Triples :=
  let bisaya_lower := pyLower bisaya
  let english_lower := pyLower english
  if strContains bisaya_lower "asa" || strContains english_lower "where" then
    (make_example "Asa ka?" "Where are you?" "Nasaan ka?",
     make_example "Asa ka moadto?" "Where are you going?" "Saan ka pupunta?",
     make_example "Asa ka moadto karon nga adlaw?" "Where are you going today?"
       "Saan ka pupunta ngayon?")
  else if strContains bisaya_lower "unsa" || strContains english_lower "what" then
    (make_example "Unsa ni?" "What is this?" "Ano ito?",
     make_example "Unsa ang imong gusto?" "What do you want?" "Ano ang gusto mo?",
     make_example "Unsa ang imong gusto nga mokaon karon?" "What do you want to eat now?"
       "Ano ang gusto mong kainin ngayon?")
  else if strContains bisaya_lower "kanus-a" || strContains english_lower "when" then
    (make_example "Kanus-a ka moadto?" "When will you go?" "Kailan ka pupunta?",
     make_example "Kanus-a ka moadto sa balay?" "When will you go to the house?"
       "Kailan ka pupunta sa bahay?",
     make_example "Kanus-a ka moadto sa balay sa akong higala?"
       "When will you go to my friend\x27s house?"
       "Kailan ka pupunta sa bahay ng aking kaibigan?")
  else if strContains bisaya_lower "ngano" || strContains english_lower "why" then
    (make_example "Ngano ka moadto?" "Why are you going?" "Bakit ka pupunta?",
     make_example "Ngano ka moadto sa balay?" "Why are you going to the house?"
       "Bakit ka pupunta sa bahay?",
     make_example "Ngano ka moadto sa balay sa akong higala karon?"
       "Why are you going to my friend\x27s house now?"
       "Bakit ka pupunta sa bahay ng aking kaibigan ngayon?")
  else questionGenericExamples bisaya tagalog english

/-- Lines 334-345: the final default/generic phrase or word templates. -/
def defaultExamples (bisaya tagalog english : String) : Triples :=
  let english_clean := pyStrip (splitParenHead (splitSlashHead english))
  let tag_clean := if truthy tagalog then tagalog else ""
  let is_phrase := strContains bisaya " "
  if is_phrase then
    (make_example (bisaya ++ ".") (english_clean ++ ".")
        (if truthy tag_clean then tag_clean ++ "." else ""),
     make_example (bisaya ++ ", mahimo ba?") (english_clean ++ ", is it possible?")
        (if truthy tag_clean then tag_clean ++ ", posible ba?" else ""),
     make_example (bisaya ++ ", mahimo ba nimo ko tabangan?")
        (english_clean ++ ", can you help me?")
        (if truthy tag_clean then tag_clean ++ ", maaari mo ba akong tulungan?" else ""))
  else
    let eng_low := pyLower english_clean
    let tag_low := pyLower tag_clean
    (make_example (bisaya ++ " na.") (english_clean ++ " now.")
        (if truthy tag_clean then tag_clean ++ " ngayon." else ""),
     make_example ("Gusto ko ug " ++ bisaya ++ ".") ("I want " ++ eng_low ++ ".")
        (if truthy tag_clean then "Gusto ko ng " ++ tag_low ++ "." else ""),
     make_example ("Gipalit nako ang " ++ bisaya ++ " sa tindahan.")
        ("I bought the " ++ eng_low ++ " at the store.")
        (if truthy tag_clean then "Binili ko ang " ++ tag_low ++ " sa tindahan." else ""))

/-- `src/regenerate_dataset.py` lines 28-347: the full example generator, an
ordered cascade on the lowercased part-of-speech tag and hard-coded word
substring triggers.  The `category` parameter mirrors the Python signature
and is unused by the body, exactly as in the source. -/
def generate_examples (bisaya tagalog english pos : String)
    (category : String := "") : Triples :=
  let bisaya_lower := pyLower bisaya
  let pos_lower := pyLower pos
  if ["greeting", "expression", "response"].contains pos_lower then
    greetingExamples bisaya tagalog english
  else if strContains pos_lower "verb"
      || ["mokaon", "matulog", "mobasa", "mosulat", "mopalit"].any
          (fun v => strContains bisaya_lower v) then
    verbExamples bisaya tagalog english
  else if strContains pos_lower "noun" then
    nounExamples bisaya tagalog english
  else if strContains pos_lower "adjective" || strContains pos_lower "adj" then
    adjectiveExamples bisaya tagalog english
  else if strContains pos_lower "number"
      || ["usa", "duha", "tulo", "upat", "lima"].any
          (fun n => strContains bisaya_lower n) then
    numberExamples bisaya tagalog english
  else if strContains pos_lower "time"
      || ["karon", "ugma", "gahapon", "adlaw"].any
          (fun tw => strContains bisaya_lower tw) then
    timeExamples bisaya tagalog english
  else if strContains pos_lower "question"
      || ["asa", "unsa", "kamus-a", "ngano"].any
          (fun q => strContains bisaya_lower q) then
    questionExamples bisaya tagalog english
  else
    let _ := category
    defaultExamples bisaya tagalog english

/-- `src/regenerate_dataset.py` lines 349-385: category assignment from the
part of speech and the English gloss. -/
def determine_category (pos english : String) : String :=
  let pos_lower := pyLower pos
  let english_lower := pyLower english
  if strContains pos_lower "greeting" then "Greetings"
  else if strContains pos_lower "expression" || strContains pos_lower "response" then
    "Common Phrases"
  else if strContains pos_lower "number" then "Numbers"
  else if strContains pos_lower "verb" then
    if ["eat", "drink", "cook", "food"].any (fun f => strContains english_lower f) then
      "Food & Dining"
    else if ["buy", "sell", "market", "shop"].any (fun f => strContains english_lower f) then
      "Market/Shopping"
    else "Actions"
  else if strContains pos_lower "noun" then
    if ["father", "mother", "family", "brother", "sister"].any
        (fun f => strContains english_lower f) then "Family"
    else if ["food", "water", "rice", "bread", "fruit"].any
        (fun f => strContains english_lower f) then "Food & Dining"
    else if ["house", "room", "door", "window"].any
        (fun f => strContains english_lower f) then "Home & Living"
    else if ["book", "school", "student", "teacher"].any
        (fun f => strContains english_lower f) then "Education"
    else "Common Nouns"
  else if strContains pos_lower "adjective" then "Descriptions"
  else if strContains pos_lower "time"
      || ["now", "today", "tomorrow", "yesterday", "day", "month", "year"].any
          (fun t => strContains english_lower t) then "Time"
  else if strContains pos_lower "question" then "Questions"
  else "Uncategorized"

/-! ## The regeneration main loop (`src/regenerate_dataset.py` lines 387-500)

Two views are embedded.  The string-typed view (`Entry`, `csvData`) covers
metadata entries whose fields are all strings — on those the generator is
total, so the `try` body never raises.  The dynamically typed view
(`PyVal`, `mainLoopDyn`) additionally models the runtime type errors CPython
raises when a metadata field is not a string, and the fact that the `except`
handler at lines 438-444 references `make_example`, a name that is only
defined *inside* `generate_examples` and hence unbound at module scope. -/

/-- One metadata entry as read by `main` via `word_data.get`, string-typed. -/
structure Entry where
  bisaya : String
  tagalog : String
  english : String
  pronunciation : String
  pos : String
deriving Repr, DecidableEq

/-- Line 429: `if not bisaya or not english: continue`. -/
def keepEntry (e : Entry) : Bool := truthy e.bisaya && truthy e.english

/-- Lines 403-419: the CSV header row. -/
def headerRow : List String :=
  ["Bisaya", "Tagalog", "English", "Part of Speech", "Pronunciation", "Category",
   "Beginner Example (Bisaya)", "Beginner English Translation", "Beginner Tagalog Translation",
   "Intermediate Example (Bisaya)", "Intermediate English Translation",
   "Intermediate Tagalog Translation",
   "Advanced Example (Bisaya)", "Advanced English Translation", "Advanced Tagalog Translation"]

/-- Lines 432-467: the row appended for one kept entry. -/
def rowFor (e : Entry) : List String :=
  let category := determine_category e.pos e.english
  let t := generate_examples e.bisaya e.tagalog e.english e.pos category
  [e.bisaya, e.tagalog, e.english, e.pos, e.pronunciation, category,
   t.1.1, t.1.2.1, t.1.2.2,
   t.2.1.1, t.2.1.2.1, t.2.1.2.2,
   t.2.2.1, t.2.2.2.1, t.2.2.2.2]

/-- Lines 402-467: `csv_data` after the loop — header first, then one row per
kept entry, in metadata order. -/
def csvData (metadata : List Entry) : List (List String) :=
  metadata.foldl (fun acc e => if keepEntry e then acc ++ [rowFor e] else acc) [headerRow]

/-- A CPython value as it can occur in a JSON metadata field. -/
inductive PyVal
  | str (s : String)
  | int (n : Int)
  | nil
deriving Repr, DecidableEq

/-- Python truthiness of the modelled values. -/
def pyTruthy : PyVal → Bool
  | .str s => s ≠ ""
  | .int n => n ≠ 0
  | .nil => false

/-- `str(v)` as the CSV writer would apply it. -/
def pyStr : PyVal → String
  | .str s => s
  | .int n => toString n
  | .nil => "None"

/-- The runtime errors the loop can hit. -/
inductive PyErr
  | attributeError
  | nameError
deriving Repr, DecidableEq

/-- A metadata entry whose fields carry arbitrary JSON-derived values. -/
structure RawEntry where
  bisaya : PyVal
  tagalog : PyVal
  english : PyVal
  pronunciation : PyVal
  pos : PyVal
deriving Repr, DecidableEq

/-- `generate_examples` including the `.lower()` calls of lines 35-38, which
raise `AttributeError` on a non-string field.  A falsy `tagalog` (None, 0,
empty string) is never lowercased and behaves exactly like `''` in the body,
since every later use of `tagalog` is guarded by its truthiness. -/
def generateExamplesDyn (bisaya tagalog english pos : PyVal) : Except PyErr Triples :=
  match bisaya, english, pos with
  | .str b, .str e, .str p =>
    if pyTruthy tagalog then
      match tagalog with
      | .str t => .ok (generate_examples b t e p (determine_category p e))
      | _ => .error .attributeError
    else .ok (generate_examples b "" e p (determine_category p e))
  | _, _, _ => .error .attributeError

/-- `determine_category` with the `.lower()` calls of lines 351-352, which
raise `AttributeError` on non-string arguments. -/
def determineCategoryDyn (pos english : PyVal) : Except PyErr String :=
  match pos, english with
  | .str p, .str e => .ok (determine_category p e)
  | _, _ => .error .attributeError

/-- Lines 422-467 for one entry: skip check, category (outside the `try`),
then the `try`/`except` around `generate_examples`.  When the generator
raises, the handler at lines 440-444 evaluates the name `make_example`,
which is not defined at module scope, so the handler itself raises
`NameError` — uncaught, it aborts the whole loop. -/
def processEntryDyn (w : RawEntry) : Except PyErr (Option (List String)) := do
  if !(pyTruthy w.bisaya) || !(pyTruthy w.english) then
    return none
  let category ← determineCategoryDyn w.pos w.english
  match generateExamplesDyn w.bisaya w.tagalog w.english w.pos with
  | .ok t =>
    return some
      [pyStr w.bisaya, pyStr w.tagalog, pyStr w.english, pyStr w.pos,
       pyStr w.pronunciation, category,
       t.1.1, t.1.2.1, t.1.2.2,
       t.2.1.1, t.2.1.2.1, t.2.1.2.2,
       t.2.2.1, t.2.2.2.1, t.2.2.2.2]
  | .error _ => .error .nameError

/-- The whole generation loop over the metadata list; an uncaught exception
aborts it, losing the remaining entries. -/
def mainLoopDyn (metadata : List RawEntry) : Except PyErr (List (List String)) :=
  metadata.foldlM
    (fun acc w => do
      match ← processEntryDyn w with
      | some row => pure (acc ++ [row])
      | none => pure acc)
    []

/-- CPython `d[k] = v` on a dict viewed as an insertion-ordered association
list: an existing key keeps its position and gets the new value, a new key is
appended. -/
def pyDictSet {β : Type} (d : List (String × β)) (k : String) (v : β) :
    List (String × β) :=
  if d.any (fun p => p.1 == k) then d.map (fun p => if p.1 == k then (k, v) else p)
  else d ++ [(k, v)]

/-- A dict built from a list of key-value pairs in order (dict comprehension
or a sequence of assignments). -/
def pyDictOf {β : Type} (pairs : List (String × β)) : List (String × β) :=
  pairs.foldl (fun d p => pyDictSet d p.1 p.2) []

/-! ## The dataset writer (`src/regenerate_dataset.py` lines 472-495) -/

/-- A tiny filesystem: file contents by path, plus the set of paths locked by
another process (locks make replacement/removal raise `PermissionError`, the
Windows behaviour the script defends against). -/
structure FS where
  files : List (String × String)
  locked : List String

/-- The only exception the writer's `try` block is prepared for. -/
inductive FsErr
  | permissionError
deriving Repr, DecidableEq

/-- Store `content` at `path` (Python `open(path, 'w')` + write). -/
def fsWrite (fs : FS) (path content : String) : FS :=
  { fs with files := pyDictSet fs.files path content }

/-- `os.path.exists`. -/
def fsExists (fs : FS) (path : String) : Bool :=
  (fs.files.lookup path).isSome

/-- Contents at a path. -/
def fsRead (fs : FS) (path : String) : Option String :=
  fs.files.lookup path

/-- `os.remove`: fails with `PermissionError` when the path is locked. -/
def fsRemove (fs : FS) (path : String) : Except FsErr FS :=
  if path ∈ fs.locked then .error .permissionError
  else .ok { fs with files := fs.files.filter (fun p => p.1 ≠ path) }

/-- `shutil.copy2 src dst`: fails when the destination is locked. -/
def fsCopy (fs : FS) (src dst : String) : Except FsErr FS :=
  if dst ∈ fs.locked then .error .permissionError
  else .ok (fsWrite fs dst ((fsRead fs src).getD ""))

/-- `shutil.move src dst`: replace `dst` with `src`'s content and drop `src`;
fails with `PermissionError` when `dst` is locked. -/
def fsMove (fs : FS) (src dst : String) : Except FsErr FS :=
  if dst ∈ fs.locked then .error .permissionError
  else
    .ok (fsWrite { fs with files := fs.files.filter (fun p => p.1 ≠ src) } dst
          ((fsRead fs src).getD ""))

/-- How the writer finished. -/
inductive WriteOutcome
  | replaced
  | tempLeft (path : String)
deriving Repr, DecidableEq

/-- Lines 472-495: write the CSV to the temp path, then `try` to back up and
replace the dataset file, catching `PermissionError` and leaving the temp
file in place.  State changes made before the failing operation persist,
exactly as in Python. -/
def datasetWriter (fs0 : FS) (tempPath outputPath content : String) : FS × WriteOutcome :=
  let backupPath := outputPath ++ ".backup"
  let fs1 := fsWrite fs0 tempPath content
  if fsExists fs1 outputPath then
    match (if fsExists fs1 backupPath then fsRemove fs1 backupPath else .ok fs1) with
    | .error _ => (fs1, .tempLeft tempPath)
    | .ok fs2 =>
      match fsCopy fs2 outputPath backupPath with
      | .error _ => (fs2, .tempLeft tempPath)
      | .ok fs3 =>
        match fsMove fs3 tempPath outputPath with
        | .error _ => (fs3, .tempLeft tempPath)
        | .ok fs4 => (fs4, .replaced)
  else
    match fsMove fs1 tempPath outputPath with
    | .error _ => (fs1, .tempLeft tempPath)
    | .ok fs4 => (fs4, .replaced)

/-! ## The training tools (`src/training/`)

`word2vec_model.wv` (gensim) and sklearn's `cosine_similarity` are
third-party library objects, so they enter the embedding as parameters: an
abstract vocabulary map `wv : String → Option (List ℚ)` and an abstract
similarity matrix `sim : Nat → Nat → ℚ`.  Everything the repository's own
code does with them is embedded exactly. -/

/-- Pointwise sum of a list of vectors (`np.sum` over axis 0). -/
def vecSum (vs : List (List ℚ)) : List ℚ :=
  match vs with
  | [] => []
  | v :: rest => rest.foldl (fun acc w => acc.zipWith (· + ·) w) v

/-- `np.mean(vs, axis=0)`: pointwise mean. -/
def vecMean (vs : List (List ℚ)) : List ℚ :=
  (vecSum vs).map (fun x => x / (vs.length : ℚ))

/-- `src/training/train_json_model.py` lines 70-80 (same logic at
`train_model.py` lines 83-94): the per-word embedding with sub-word-average
and zero-vector fallbacks. -/
def getEmbedding (wv : String → Option (List ℚ)) (bisaya_lower : String) : List ℚ :=
  match wv bisaya_lower with
  | some v => v
  | none =>
    let words := pySplit bisaya_lower
    let word_embeddings := words.filterMap wv
    if !word_embeddings.isEmpty then vecMean word_embeddings
    else List.replicate 100 0

/-- One row of the dataset CSV as pandas hands it to the trainers: `none`
models a NaN cell, whose `str()` is the string `"nan"`. -/
structure CsvRow where
  bisaya : Option String
  tagalog : Option String
  english : Option String
  pronunciation : Option String
  pos : Option String
  category : Option String
deriving Repr, DecidableEq

/-- `str(cell)`: NaN prints as `"nan"`. -/
def pyStrCell : Option String → String
  | some s => s
  | none => "nan"

/-- One entry of the JSON bundle's metadata list. -/
structure MetaEntry where
  bisaya : String
  tagalog : String
  english : String
  pronunciation : String
  pos : String
  category : String
deriving Repr, DecidableEq

/-- `train_json_model.py` lines 84-91: the metadata record for one kept row
(`str(x).strip() if pd.notna(x) else default`). -/
def metaOf (row : CsvRow) (bisaya : String) : MetaEntry :=
  { bisaya := bisaya,
    tagalog := match row.tagalog with | some s => pyStrip s | none => "",
    english := pyStrip (pyStrCell row.english),
    pronunciation := match row.pronunciation with | some s => pyStrip s | none => "",
    pos := match row.pos with | some s => pyStrip s | none => "Unknown",
    category := match row.category with | some s => pyStrip s | none => "Uncategorized" }

/-- `train_json_model.py` lines 56-94 (`generate_embeddings`): one pass over
the dataframe, skipping empty/NaN Bisaya cells, keying the embeddings dict
by the stripped lowercased word and appending every kept row's metadata. -/
def generate_embeddings (wv : String → Option (List ℚ)) (df : List CsvRow) :
    List (String × List ℚ) × List MetaEntry :=
  df.foldl
    (fun acc row =>
      let bisaya := pyStrip (pyStrCell row.bisaya)
      if bisaya = "" || bisaya = "nan" then acc
      else
        let bisaya_lower := pyLower bisaya
        let embedding := getEmbedding wv bisaya_lower
        (pyDictSet acc.1 bisaya_lower embedding, acc.2 ++ [metaOf row bisaya]))
    ([], [])

/-- The JSON bundle written by `train_json_model.py` lines 121-136. -/
structure ModelData where
  embeddings : List (String × List ℚ)
  metadata : List MetaEntry
  similarity : List (String × List (String × ℚ))
  vocab_size : Nat
  embedding_dim : Nat
  version : String
  format : String

/-- `save_model`: in particular `'vocab_size': len(embeddings)`. -/
def save_model (embeddings : List (String × List ℚ)) (metadata_list : List MetaEntry)
    (similarity : List (String × List (String × ℚ))) : ModelData :=
  { embeddings := embeddings,
    metadata := metadata_list,
    similarity := similarity,
    vocab_size := embeddings.length,
    embedding_dim := 100,
    version := "2.0.0",
    format := "json" }

/-- Insert a pair into a list sorted by non-increasing score, before any
equal score (so earlier elements stay first among ties). -/
def insertDesc (a : String × ℚ) : List (String × ℚ) → List (String × ℚ)
  | [] => [a]
  | b :: t => if b.2 ≤ a.2 then a :: b :: t else b :: insertDesc a t

/-- Python `list.sort(key=score, reverse=True)`: a stable sort by
non-increasing score.  A stable sort's output is canonical (order by score
descending, original order among equal scores), so this structurally
recursive insertion sort produces exactly CPython's result. -/
def sortDesc (l : List (String × ℚ)) : List (String × ℚ) :=
  l.foldr insertDesc []

/-- The top-neighbour construction shared verbatim by
`train_json_model.py` lines 109-116, `train_model.py` lines 119-134 and
`train_tflite_model.py` lines 224-232: for each position `i` in `words`,
pair every other position's word with its similarity score, sort by score
descending (Python's stable sort), keep the first 10, and turn them into a
dict. -/
def topSimilarTable (words : List String) (sim : Nat → Nat → ℚ) :
    List (String × List (String × ℚ)) :=
  words.enum.foldl
    (fun acc iw =>
      let similarities :=
        (words.enum.filter (fun jw => jw.1 ≠ iw.1)).map (fun jw => (jw.2, sim iw.1 jw.1))
      let sorted := sortDesc similarities
      pyDictSet acc iw.2 (pyDictOf (sorted.take 10)))
    []

/-- `train_tflite_model.py` lines 207-216: the word list fed to its
`calculate_similarity_matrix` — one occurrence per dataset row whose word is
in the trained vocabulary, with no deduplication. -/
def tfliteWords (wv : String → Option (List ℚ)) (df : List CsvRow) : List String :=
  df.foldl
    (fun acc row =>
      let bisaya := pyStrip (pyStrCell row.bisaya)
      if truthy bisaya && bisaya ≠ "nan" then
        let bisaya_lower := pyLower bisaya
        if (wv bisaya_lower).isSome then acc ++ [bisaya_lower] else acc
      else acc)
    []

/-- Modelled from the claim's words, for comparison with the code: "the
number of distinct lowercased non-empty Bisaya words in the dataset". -/
def distinctNonEmptyLowerCount (df : List CsvRow) : Nat :=
  ((((df.filterMap CsvRow.bisaya).filter (fun b => b ≠ "")).map pyLower).dedup).length

/-- Keys of an association-list dict, in insertion order. -/
def keysOf {β : Type} (d : List (String × β)) : List String := d.map Prod.fst

/-- The stripped Bisaya cell (`str(row['Bisaya']).strip()`). -/
def stripBisaya (r : CsvRow) : String := pyStrip (pyStrCell r.bisaya)

/-- A row survives the `if not bisaya or bisaya == 'nan': continue` guard. -/
def keptRow (r : CsvRow) : Bool := !(stripBisaya r = "" || stripBisaya r = "nan")

/-- The embeddings-dict key of a kept row: stripped then lowercased. -/
def keyOf (r : CsvRow) : String := pyLower (stripBisaya r)

/-- The three Tagalog components of a generated triple, in tier order. -/
def tagParts (t : Triples) : List String := [t.1.2.2, t.2.1.2.2, t.2.2.2.2]

/-- A metadata entry whose `tagalog` field holds the number 1: `tagalog.lower()`
at line 38 then raises `AttributeError` inside the `try`. -/
def c1BadEntry : RawEntry :=
  ⟨.str "buotan", .int 1, .str "kind", .str "bu-o-tan", .str "adjective"⟩

/-- A well-formed entry queued after the bad one. -/
def c1GoodEntry : RawEntry :=
  ⟨.str "balay", .str "bahay", .str "house", .str "ba-lay", .str "noun"⟩

/-- Two dataset rows carrying the same word, one with a stray trailing space:
two distinct non-empty lowercased cell strings, one embeddings key. -/
def c9df : List CsvRow :=
  [⟨some "Kumusta", some "kumusta", some "hello", none, some "greeting", none⟩,
   ⟨some "kumusta ", some "kumusta", some "hi", none, some "greeting", none⟩]

/-- A vocabulary in which nothing is found (forces the zero-vector path). -/
def c9wv : String → Option (List ℚ) := fun _ => none

/-- A vocabulary containing only the word `oo`. -/
def c6wv : String → Option (List ℚ) := fun s => if s = "oo" then some [1, 0] else none

/-- Two dataset rows that both normalise to the word `oo`, so the TFLite
trainer's word list contains it twice. -/
def c6df : List CsvRow :=
  [⟨some "Oo", none, some "yes", none, some "response", none⟩,
   ⟨some "oo", none, some "yes", none, some "expression", none⟩]

/-- Cosine similarity of identical non-zero vectors is 1, so the constant-1
matrix is the one `cosine_similarity` returns for two copies of `[1, 0]`. -/
def c6sim : Nat → Nat → ℚ := fun _ _ => 1

/-- A vocabulary with the sub-words `ka` and `adlaw` but not the phrase. -/
def c8wv : String → Option (List ℚ) :=
  fun s => if s = "ka" then some [1, 2] else if s = "adlaw" then some [3, 6] else none

/-! ## Dictionary lemmas -/

lemma any_key_iff_mem {β : Type} (d : List (String × β)) (k : String) :
    d.any (fun p => p.1 == k) = true ↔ k ∈ keysOf d := by
  induction d with
  | nil => simp [keysOf]
  | cons a t ih =>
    simp only [List.any_cons, Bool.or_eq_true, beq_iff_eq, ih, keysOf, List.map_cons,
      List.mem_cons]
    constructor
    · rintro (h | h)
      · exact Or.inl h.symm
      · exact Or.inr h
    · rintro (h | h)
      · exact Or.inl h.symm
      · exact Or.inr h

lemma lookup_cons_ite {β : Type} (k' : String) (v' : β) (t : List (String × β)) (q : String) :
    List.lookup q ((k', v') :: t) = if q = k' then some v' else List.lookup q t := by
  by_cases h : q = k'
  · simp [List.lookup_cons, h]
  · have hb : (q == k') = false := by simp [h]
    simp [List.lookup_cons, hb, h]

lemma lookup_mapUpdate_ne {β : Type} (k q : String) (v : β) (hq : q ≠ k) :
    ∀ t : List (String × β),
      (t.map (fun p => if p.1 == k then (k, v) else p)).lookup q = t.lookup q := by
  intro t
  induction t with
  | nil => simp
  | cons b s ih =>
    obtain ⟨b1, b2⟩ := b
    rw [List.map_cons]
    by_cases hb : b1 = k
    · have hf : (if ((b1, b2).1 == k) = true then (k, v) else (b1, b2)) = (k, v) := by
        simp [hb]
      rw [hf, lookup_cons_ite, if_neg hq, ih, lookup_cons_ite,
        if_neg (fun h : q = b1 => hq (h.trans hb))]
    · have hf : (if ((b1, b2).1 == k) = true then (k, v) else (b1, b2)) = (b1, b2) := by
        simp [hb]
      rw [hf, lookup_cons_ite, lookup_cons_ite, ih]

lemma pyDictSet_cons {β : Type} (a : String × β) (t : List (String × β)) (k : String) (v : β) :
    pyDictSet (a :: t) k v =
      if a.1 = k then (k, v) :: t.map (fun p => if p.1 == k then (k, v) else p)
      else a :: pyDictSet t k v := by
  by_cases ha : a.1 = k
  · have h1 : ((a :: t).any fun p => p.1 == k) = true := by simp [List.any_cons, ha]
    simp [pyDictSet, h1, ha]
  · have haf : (a.1 == k) = false := by simp [ha]
    cases ht : (t.any fun p => p.1 == k) with
    | true =>
      have h1 : ((a :: t).any fun p => p.1 == k) = true := by simp [List.any_cons, ht]
      simp [pyDictSet, h1, ht, ha, haf]
    | false =>
      have h1 : ((a :: t).any fun p => p.1 == k) = false := by
        simp [List.any_cons, haf, ht]
      simp [pyDictSet, h1, ht, ha]

lemma lookup_pyDictSet {β : Type} (d : List (String × β)) (k q : String) (v : β) :
    (pyDictSet d k v).lookup q = if q = k then some v else d.lookup q := by
  induction d with
  | nil => simp [pyDictSet, lookup_cons_ite]
  | cons a t ih =>
    obtain ⟨a1, a2⟩ := a
    rw [pyDictSet_cons]
    by_cases ha : a1 = k
    · rw [if_pos ha, lookup_cons_ite]
      by_cases hq : q = k
      · rw [if_pos hq, if_pos hq]
      · rw [if_neg hq, if_neg hq, lookup_mapUpdate_ne k q v hq t, lookup_cons_ite,
          if_neg (fun h : q = a1 => hq (h.trans ha))]
    · rw [if_neg ha, lookup_cons_ite, ih]
      by_cases hqa : q = a1
      · have hqk : ¬ q = k := fun h => ha (hqa.symm.trans h)
        rw [if_pos hqa, if_neg hqk, lookup_cons_ite, if_pos hqa]
      · rw [if_neg hqa]
        by_cases hq : q = k
        · rw [if_pos hq, if_pos hq]
        · rw [if_neg hq, if_neg hq, lookup_cons_ite, if_neg hqa]

lemma keysOf_pyDictSet {β : Type} (d : List (String × β)) (k : String) (v : β) :
    keysOf (pyDictSet d k v) =
      if k ∈ keysOf d then keysOf d else keysOf d ++ [k] := by
  by_cases h : k ∈ keysOf d
  · have ha : (d.any fun p => p.1 == k) = true := (any_key_iff_mem d k).2 h
    rw [if_pos h]
    unfold pyDictSet
    rw [if_pos ha]
    unfold keysOf
    rw [List.map_map]
    refine List.map_congr_left ?_
    intro p _
    by_cases hp : p.1 = k
    · simp [hp]
    · simp [hp]
  · have ha : (d.any fun p => p.1 == k) = false := by
      cases hx : (d.any fun p => p.1 == k) with
      | true => exact absurd ((any_key_iff_mem d k).1 hx) h
      | false => rfl
    rw [if_neg h]
    unfold pyDictSet
    rw [ha]
    simp [keysOf]

lemma mem_keysOf_pyDictSet {β : Type} (d : List (String × β)) (k q : String) (v : β) :
    q ∈ keysOf (pyDictSet d k v) ↔ q ∈ keysOf d ∨ q = k := by
  rw [keysOf_pyDictSet]
  by_cases h : k ∈ keysOf d
  · rw [if_pos h]
    constructor
    · exact Or.inl
    · rintro (hx | hx)
      · exact hx
      · exact hx ▸ h
  · rw [if_neg h]
    simp

lemma nodup_keysOf_pyDictSet {β : Type} (d : List (String × β)) (k : String) (v : β)
    (h : (keysOf d).Nodup) : (keysOf (pyDictSet d k v)).Nodup := by
  rw [keysOf_pyDictSet]
  by_cases hm : k ∈ keysOf d
  · rwa [if_pos hm]
  · rw [if_neg hm]
    simp [List.nodup_append, h, List.disjoint_singleton, hm]

lemma length_pyDictSet {β : Type} (d : List (String × β)) (k : String) (v : β) :
    (pyDictSet d k v).length ≤ d.length + 1 := by
  unfold pyDictSet
  by_cases h : (d.any fun p => p.1 == k) = true
  · rw [if_pos h, List.length_map]
    omega
  · rw [if_neg h, List.length_append]
    simp

lemma lookup_mem {β : Type} (d : List (String × β)) (k : String) (v : β)
    (h : d.lookup k = some v) : (k, v) ∈ d := by
  induction d with
  | nil => simp at h
  | cons a t ih =>
    obtain ⟨a1, a2⟩ := a
    rw [lookup_cons_ite] at h
    by_cases hk : k = a1
    · rw [if_pos hk] at h
      have hv : a2 = v := by injection h
      subst hv
      subst hk
      exact List.mem_cons_self (k, a2) t
    · rw [if_neg hk] at h
      exact List.mem_cons_of_mem _ (ih h)

lemma lookup_isSome_of_mem_keys {β : Type} (d : List (String × β)) (k : String)
    (h : k ∈ keysOf d) : ∃ v, d.lookup k = some v := by
  induction d with
  | nil => simp [keysOf] at h
  | cons a t ih =>
    obtain ⟨a1, a2⟩ := a
    rw [lookup_cons_ite]
    by_cases hk : k = a1
    · exact ⟨a2, by rw [if_pos hk]⟩
    · have : k ∈ keysOf t := by
        rcases (by simpa [keysOf] using h : k = a1 ∨ k ∈ keysOf t) with hx | hx
        · exact absurd hx hk
        · exact hx
      obtain ⟨v, hv⟩ := ih this
      exact ⟨v, by rw [if_neg hk, hv]⟩

lemma lookup_eq_none_of_not_mem_keys {β : Type} (d : List (String × β)) (k : String)
    (h : k ∉ keysOf d) : d.lookup k = none := by
  induction d with
  | nil => rfl
  | cons a t ih =>
    obtain ⟨a1, a2⟩ := a
    rw [lookup_cons_ite]
    have h1 : k ≠ a1 := fun hx => h (by simp [keysOf, hx])
    have h2 : k ∉ keysOf t := fun hx => h (by simp [keysOf] at hx ⊢; exact Or.inr hx)
    rw [if_neg h1, ih h2]

lemma foldl_pyDictSet_nodup {β : Type} :
    ∀ (pairs acc : List (String × β)), (keysOf acc ++ keysOf pairs).Nodup →
      pairs.foldl (fun d p => pyDictSet d p.1 p.2) acc = acc ++ pairs := by
  intro pairs
  induction pairs with
  | nil => intro acc _; simp
  | cons a t ih =>
    intro acc h
    obtain ⟨a1, a2⟩ := a
    have hmem : a1 ∉ keysOf acc := by
      intro hx
      have : (keysOf acc).Disjoint (keysOf ((a1, a2) :: t)) :=
        (List.nodup_append.1 h).2.2
      exact this hx (by simp [keysOf])
    have hset : pyDictSet acc a1 a2 = acc ++ [(a1, a2)] := by
      unfold pyDictSet
      have : (acc.any fun p => p.1 == a1) = false := by
        cases hx : (acc.any fun p => p.1 == a1) with
        | true => exact absurd ((any_key_iff_mem acc a1).1 hx) hmem
        | false => rfl
      rw [this]
      simp
    have hnd : (keysOf (acc ++ [(a1, a2)]) ++ keysOf t).Nodup := by
      have : keysOf (acc ++ [(a1, a2)]) ++ keysOf t
          = keysOf acc ++ ([a1] ++ keysOf t) := by
        simp [keysOf]
      rw [this]
      have h' : (keysOf acc ++ ([a1] ++ keysOf t)).Perm
          (keysOf acc ++ keysOf ((a1, a2) :: t)) := by
        simp [keysOf]
      exact h'.nodup h
    calc ((a1, a2) :: t).foldl (fun d p => pyDictSet d p.1 p.2) acc
        = t.foldl (fun d p => pyDictSet d p.1 p.2) (acc ++ [(a1, a2)]) := by
          rw [List.foldl_cons, hset]
      _ = (acc ++ [(a1, a2)]) ++ t := ih _ hnd
      _ = acc ++ (a1, a2) :: t := by simp

lemma pyDictOf_eq_self {β : Type} (pairs : List (String × β))
    (h : (keysOf pairs).Nodup) : pyDictOf pairs = pairs := by
  unfold pyDictOf
  rw [foldl_pyDictSet_nodup pairs [] (by simpa [keysOf] using h)]
  simp

lemma foldl_pyDictSet_map {α : Type} {β : Type} (key : α → String) (val : α → β) :
    ∀ (xs : List α) (acc : List (String × β)),
      xs.foldl (fun d x => pyDictSet d (key x) (val x)) acc
        = (xs.map (fun x => (key x, val x))).foldl (fun d p => pyDictSet d p.1 p.2) acc := by
  intro xs
  induction xs with
  | nil => intro acc; rfl
  | cons a t ih => intro acc; simp only [List.foldl_cons, List.map_cons, ih]

lemma mem_keysOf_foldl_pyDictSet {β : Type} (q : String) :
    ∀ (pairs acc : List (String × β)),
      q ∈ keysOf (pairs.foldl (fun d p => pyDictSet d p.1 p.2) acc)
        ↔ q ∈ keysOf acc ∨ q ∈ keysOf pairs := by
  intro pairs
  induction pairs with
  | nil => intro acc; simp [keysOf]
  | cons a t ih =>
    intro acc
    rw [List.foldl_cons, ih, mem_keysOf_pyDictSet]
    constructor
    · rintro ((hx | hx) | hx)
      · exact Or.inl hx
      · exact Or.inr (by simp [keysOf, hx])
      · exact Or.inr (by simp [keysOf] at hx ⊢; exact Or.inr hx)
    · rintro (hx | hx)
      · exact Or.inl (Or.inl hx)
      · rcases (by simpa [keysOf] using hx : q = a.1 ∨ q ∈ keysOf t) with hy | hy
        · exact Or.inl (Or.inr hy)
        · exact Or.inr hy

lemma mem_keysOf_pyDictOf {β : Type} (pairs : List (String × β)) (q : String) :
    q ∈ keysOf (pyDictOf pairs) ↔ q ∈ keysOf pairs := by
  unfold pyDictOf
  rw [mem_keysOf_foldl_pyDictSet]
  simp [keysOf]

lemma nodup_keysOf_pyDictOf {β : Type} (pairs : List (String × β)) :
    (keysOf (pyDictOf pairs)).Nodup := by
  unfold pyDictOf
  have : ∀ (ps acc : List (String × β)), (keysOf acc).Nodup →
      (keysOf (ps.foldl (fun d p => pyDictSet d p.1 p.2) acc)).Nodup := by
    intro ps
    induction ps with
    | nil => intro acc h; exact h
    | cons a t ih =>
      intro acc h
      exact ih _ (nodup_keysOf_pyDictSet _ _ _ h)
  exact this pairs [] (by simp [keysOf])

lemma length_pyDictOf_le {β : Type} (pairs : List (String × β)) :
    (pyDictOf pairs).length ≤ pairs.length := by
  unfold pyDictOf
  have : ∀ (ps acc : List (String × β)),
      (ps.foldl (fun d p => pyDictSet d p.1 p.2) acc).length ≤ acc.length + ps.length := by
    intro ps
    induction ps with
    | nil => intro acc; simp
    | cons a t ih =>
      intro acc
      rw [List.foldl_cons]
      calc (t.foldl (fun d p => pyDictSet d p.1 p.2) (pyDictSet acc a.1 a.2)).length
          ≤ (pyDictSet acc a.1 a.2).length + t.length := ih _
        _ ≤ (acc.length + 1) + t.length := by
            exact Nat.add_le_add_right (length_pyDictSet acc a.1 a.2) _
        _ = acc.length + (a :: t).length := by simp; omega
  simpa using this pairs []

lemma mem_pyDictSet_sub {β : Type} (d : List (String × β)) (k : String) (v : β)
    (p : String × β) (h : p ∈ pyDictSet d k v) : p ∈ d ∨ p = (k, v) := by
  unfold pyDictSet at h
  by_cases ha : (d.any fun q => q.1 == k) = true
  · rw [if_pos ha] at h
    obtain ⟨q, hq, hqe⟩ := List.mem_map.1 h
    by_cases hqk : q.1 = k
    · right
      rw [← hqe]
      simp [hqk]
    · left
      have : (q.1 == k) = false := by simp [hqk]
      rw [← hqe]
      simpa [this] using hq
  · rw [if_neg ha] at h
    rcases List.mem_append.1 h with hx | hx
    · exact Or.inl hx
    · exact Or.inr (by simpa using hx)

lemma pyDictOf_valfun {β : Type} (f : String → β) :
    ∀ (pairs : List (String × β)), (∀ p ∈ pairs, p.2 = f p.1) →
      ∀ p ∈ pyDictOf pairs, p.2 = f p.1 := by
  have main : ∀ (ps acc : List (String × β)), (∀ p ∈ ps, p.2 = f p.1) →
      (∀ p ∈ acc, p.2 = f p.1) →
      ∀ p ∈ ps.foldl (fun d q => pyDictSet d q.1 q.2) acc, p.2 = f p.1 := by
    intro ps
    induction ps with
    | nil => intro acc _ hacc p hp; exact hacc p hp
    | cons a t ih =>
      intro acc hps hacc p hp
      rw [List.foldl_cons] at hp
      refine ih _ (fun q hq => hps q (List.mem_cons_of_mem _ hq)) ?_ p hp
      intro q hq
      rcases mem_pyDictSet_sub acc a.1 a.2 q hq with hx | hx
      · exact hacc q hx
      · have ha : a.2 = f a.1 := hps a (List.mem_cons_self _ _)
        rw [hx]
        exact ha
  intro pairs h
  exact main pairs [] h (by simp)

/-! ## Sorting lemmas -/

lemma insertDesc_perm (a : String × ℚ) :
    ∀ l : List (String × ℚ), (insertDesc a l).Perm (a :: l) := by
  intro l
  induction l with
  | nil => simp [insertDesc]
  | cons b t ih =>
    unfold insertDesc
    by_cases h : b.2 ≤ a.2
    · rw [if_pos h]
    · rw [if_neg h]
      exact (List.Perm.cons b ih).trans (List.Perm.swap a b t)

lemma sortDesc_perm (l : List (String × ℚ)) : (sortDesc l).Perm l := by
  unfold sortDesc
  induction l with
  | nil => simp
  | cons a t ih =>
    rw [List.foldr_cons]
    exact (insertDesc_perm a _).trans (List.Perm.cons a ih)

lemma mem_sortDesc (l : List (String × ℚ)) (p : String × ℚ) :
    p ∈ sortDesc l ↔ p ∈ l :=
  (sortDesc_perm l).mem_iff

lemma insertDesc_pairwise (a : String × ℚ) (l : List (String × ℚ))
    (h : l.Pairwise (fun x y => y.2 ≤ x.2)) :
    (insertDesc a l).Pairwise (fun x y => y.2 ≤ x.2) := by
  induction l with
  | nil => simp [insertDesc]
  | cons b t ih =>
    unfold insertDesc
    by_cases hba : b.2 ≤ a.2
    · rw [if_pos hba]
      refine List.Pairwise.cons ?_ h
      intro z hz
      rcases List.mem_cons.1 hz with hx | hx
      · exact hx ▸ hba
      · exact le_trans (List.rel_of_pairwise_cons h hx) hba
    · rw [if_neg hba]
      have hab : a.2 ≤ b.2 := le_of_not_le hba
      refine List.Pairwise.cons ?_ (ih (List.Pairwise.of_cons h))
      intro z hz
      rcases ((insertDesc_perm a t).mem_iff).1 hz with hx
      rcases List.mem_cons.1 hx with hy | hy
      · exact hy ▸ hab
      · exact List.rel_of_pairwise_cons h hy

lemma sortDesc_pairwise (l : List (String × ℚ)) :
    (sortDesc l).Pairwise (fun x y => y.2 ≤ x.2) := by
  unfold sortDesc
  induction l with
  | nil => simp
  | cons a t ih =>
    rw [List.foldr_cons]
    exact insertDesc_pairwise a _ ih

/-! ## Loop and filesystem lemmas -/

lemma lookup_filter_ne {β : Type} (d : List (String × β)) (p q : String) (h : q ≠ p) :
    (d.filter (fun x => x.1 ≠ p)).lookup q = d.lookup q := by
  induction d with
  | nil => rfl
  | cons a t ih =>
    obtain ⟨a1, a2⟩ := a
    by_cases hap : a1 = p
    · have hf : (decide ((a1, a2).1 ≠ p)) = false := by simp [hap]
      rw [List.filter_cons, hf, if_neg Bool.false_ne_true, ih, lookup_cons_ite,
        if_neg (fun hx : q = a1 => h (hx.trans hap))]
    · have hf : (decide ((a1, a2).1 ≠ p)) = true := by simp [hap]
      rw [List.filter_cons, hf, if_pos rfl, lookup_cons_ite, lookup_cons_ite, ih]

lemma lookup_filter_self {β : Type} (d : List (String × β)) (p : String) :
    (d.filter (fun x => x.1 ≠ p)).lookup p = none := by
  induction d with
  | nil => rfl
  | cons a t ih =>
    obtain ⟨a1, a2⟩ := a
    by_cases hap : a1 = p
    · have hf : (decide ((a1, a2).1 ≠ p)) = false := by simp [hap]
      rw [List.filter_cons, hf, if_neg Bool.false_ne_true]
      exact ih
    · have hf : (decide ((a1, a2).1 ≠ p)) = true := by simp [hap]
      rw [List.filter_cons, hf, if_pos rfl, lookup_cons_ite,
        if_neg (fun hx : p = a1 => hap hx.symm), ih]

lemma foldl_append_ite {α β : Type} (p : α → Bool) (f : α → β) :
    ∀ (l : List α) (init : List β),
      l.foldl (fun acc e => if p e then acc ++ [f e] else acc) init
        = init ++ (l.filter p).map f := by
  intro l
  induction l with
  | nil => intro init; simp
  | cons a t ih =>
    intro init
    rw [List.foldl_cons, List.filter_cons]
    by_cases h : p a = true
    · rw [if_pos h, if_pos h, ih, List.map_cons]
      simp
    · have hf : p a = false := by
        cases hx : p a with
        | true => exact absurd hx h
        | false => rfl
      rw [hf, if_neg Bool.false_ne_true, if_neg Bool.false_ne_true]
      exact ih init

lemma csvData_eq (metadata : List Entry) :
    csvData metadata = headerRow :: (metadata.filter keepEntry).map rowFor := by
  unfold csvData
  rw [foldl_append_ite keepEntry rowFor metadata [headerRow]]
  rfl

/-! ## Claims -/

lemma append_backup_ne (s : String) : s ++ ".backup" ≠ s := by
  intro h
  have hlen := congrArg String.length h
  rw [String.length_append] at hlen
  have h7 : (".backup").length = 7 := rfl
  omega

/-- C1: the claim says an exception from `generate_examples` is caught,
recovered with fallback templates, and the batch continues.  In the code the
`except` handler calls `make_example`, which is only defined inside
`generate_examples`, so the handler raises an uncaught `NameError` and the
batch aborts: on a metadata list whose first entry has a numeric `tagalog`
field (making `generate_examples` raise `AttributeError` at line 38), the
loop stops with `NameError` and the well-formed second entry is never
processed.  This evaluates the embedded loop at that failing input. -/
theorem C1_handler_name_error :
    mainLoopDyn [c1BadEntry, c1GoodEntry] = .error .nameError := by rfl

/-- C2: `generate_examples` is a pure function of its arguments, and the row
construction of the main loop is a pure function of the metadata list, so two
evaluations on the same input give identical triples and identical CSV rows
(header included). -/
theorem C2_determinism :
    (∀ bisaya tagalog english pos category,
      generate_examples bisaya tagalog english pos category
        = generate_examples bisaya tagalog english pos category) ∧
    ∀ m₁ m₂ : List Entry, m₁ = m₂ → csvData m₁ = csvData m₂ :=
  ⟨fun _ _ _ _ _ => rfl, fun _ _ h => by rw [h]⟩

/-- C2 witness. -/
theorem C2_determinism_witness :
    csvData [⟨"balay", "bahay", "house", "ba-lay", "noun"⟩]
      = csvData [⟨"balay", "bahay", "house", "ba-lay", "noun"⟩] :=
  C2_determinism.2 _ _ rfl

/-- C4: an entry contributes a row exactly when both `bisaya` and `english`
are non-empty (the data rows are precisely the kept entries' rows, in
order), and every data row starts with a non-empty source word and carries a
non-empty primary translation in its third cell. -/
theorem C4_nonempty_filter (metadata : List Entry) :
    csvData metadata = headerRow :: (metadata.filter keepEntry).map rowFor ∧
    (∀ e : Entry, keepEntry e = true ↔ (e.bisaya ≠ "" ∧ e.english ≠ "")) ∧
    ∀ r ∈ (metadata.filter keepEntry).map rowFor,
      ∃ b tg en rest, r = b :: tg :: en :: rest ∧ b ≠ "" ∧ en ≠ "" := by
  refine ⟨csvData_eq metadata, ?_, ?_⟩
  · intro e
    simp [keepEntry, truthy]
  · intro r hr
    obtain ⟨e, he, rfl⟩ := List.mem_map.1 hr
    have hk : keepEntry e = true := List.of_mem_filter he
    have hk' : e.bisaya ≠ "" ∧ e.english ≠ "" := by
      simpa [keepEntry, truthy] using hk
    have hb : e.bisaya ≠ "" := hk'.1
    have hen : e.english ≠ "" := hk'.2
    exact ⟨e.bisaya, e.tagalog, e.english, _, rfl, hb, hen⟩

/-- C4 witness: a two-entry list where the second entry has an empty source
word and is dropped. -/
theorem C4_nonempty_filter_witness :
    csvData [⟨"tubig", "tubig", "water", "tu-big", "noun"⟩, ⟨"", "x", "y", "", "noun"⟩]
      = headerRow ::
        ([(⟨"tubig", "tubig", "water", "tu-big", "noun"⟩ : Entry),
          ⟨"", "x", "y", "", "noun"⟩].filter keepEntry).map rowFor ∧
    ∃ b tg en rest,
      rowFor ⟨"tubig", "tubig", "water", "tu-big", "noun"⟩ = b :: tg :: en :: rest ∧
        b ≠ "" ∧ en ≠ "" :=
  ⟨(C4_nonempty_filter _).1,
   (C4_nonempty_filter [⟨"tubig", "tubig", "water", "tu-big", "noun"⟩,
      ⟨"", "x", "y", "", "noun"⟩]).2.2
     (rowFor ⟨"tubig", "tubig", "water", "tu-big", "noun"⟩)
     (by simp [keepEntry, truthy])⟩

/-- C5: for any entry whose part of speech is in the
greeting/expression/response set and whose lowercased source word contains
"salamat" but neither "kumusta" nor "maayong", the generator returns the
three fixed hand-authored triples verbatim. -/
theorem C5_salamat_templates (bisaya tagalog english pos category : String)
    (hpos : (["greeting", "expression", "response"].contains (pyLower pos)) = true)
    (hsal : strContains (pyLower bisaya) "salamat" = true)
    (hkum : strContains (pyLower bisaya) "kumusta" = false)
    (hmaa : strContains (pyLower bisaya) "maayong" = false) :
    generate_examples bisaya tagalog english pos category =
      (("Salamat.", "Thank you.", "Salamat."),
       ("Daghang salamat sa imong tabang.", "Thank you very much for your help.",
        "Maraming salamat sa iyong tulong."),
       ("Daghang salamat kaayo sa tanan nga imong nahimo.",
        "Thank you very much for everything you did.",
        "Maraming salamat sa lahat ng iyong ginawa.")) := by
  have hpos' : pyLower pos = "greeting" ∨ pyLower pos = "expression"
      ∨ pyLower pos = "response" := by simpa using hpos
  unfold generate_examples greetingExamples
  rcases hpos' with h | h | h <;>
    simp [h, hsal, hkum, hmaa, make_example, truthy]

/-- C5 witness: the entry for the actual word. -/
theorem C5_salamat_templates_witness :
    generate_examples "Salamat" "Salamat po" "thank you" "expression" "Common Phrases" =
      (("Salamat.", "Thank you.", "Salamat."),
       ("Daghang salamat sa imong tabang.", "Thank you very much for your help.",
        "Maraming salamat sa iyong tulong."),
       ("Daghang salamat kaayo sa tanan nga imong nahimo.",
        "Thank you very much for everything you did.",
        "Maraming salamat sa lahat ng iyong ginawa.")) :=
  C5_salamat_templates "Salamat" "Salamat po" "thank you" "expression" "Common Phrases"
    (by decide) (by decide) (by decide) (by decide)

/-- C7 counterexample: the part-of-speech tag "particle" matches none of the
special-cased branches, yet the entry for the word "usa" does not fall
through to the final generic template — the number branch also fires on the
word itself (`'usa' in bisaya_lower`), so the claim as stated is false. -/
theorem C7_counterexample :
    (pyLower "particle" ≠ "greeting" ∧ pyLower "particle" ≠ "expression" ∧
     pyLower "particle" ≠ "response" ∧
     strContains (pyLower "particle") "verb" = false ∧
     strContains (pyLower "particle") "noun" = false ∧
     strContains (pyLower "particle") "adjective" = false ∧
     strContains (pyLower "particle") "adj" = false ∧
     strContains (pyLower "particle") "number" = false ∧
     strContains (pyLower "particle") "time" = false ∧
     strContains (pyLower "particle") "question" = false) ∧
    generate_examples "usa" "isa" "one" "particle" ""
      = numberExamples "usa" "isa" "one" ∧
    generate_examples "usa" "isa" "one" "particle" ""
      ≠ defaultExamples "usa" "isa" "one" := by
  refine ⟨by decide, by decide, by decide⟩

/-- C7 (amended): an input falls through to the final generic phrase/word
template exactly when its part-of-speech tag matches none of the
special-cased branches *and* its lowercased source word contains none of the
hard-coded word triggers; on such inputs the generator is total and returns
the generic templates. -/
theorem C7_default_fallthrough (bisaya tagalog english pos category : String)
    (hg1 : pyLower pos ≠ "greeting") (hg2 : pyLower pos ≠ "expression")
    (hg3 : pyLower pos ≠ "response")
    (hv : strContains (pyLower pos) "verb" = false)
    (hv1 : strContains (pyLower bisaya) "mokaon" = false)
    (hv2 : strContains (pyLower bisaya) "matulog" = false)
    (hv3 : strContains (pyLower bisaya) "mobasa" = false)
    (hv4 : strContains (pyLower bisaya) "mosulat" = false)
    (hv5 : strContains (pyLower bisaya) "mopalit" = false)
    (hn : strContains (pyLower pos) "noun" = false)
    (ha1 : strContains (pyLower pos) "adjective" = false)
    (ha2 : strContains (pyLower pos) "adj" = false)
    (hm : strContains (pyLower pos) "number" = false)
    (hm1 : strContains (pyLower bisaya) "usa" = false)
    (hm2 : strContains (pyLower bisaya) "duha" = false)
    (hm3 : strContains (pyLower bisaya) "tulo" = false)
    (hm4 : strContains (pyLower bisaya) "upat" = false)
    (hm5 : strContains (pyLower bisaya) "lima" = false)
    (ht : strContains (pyLower pos) "time" = false)
    (ht1 : strContains (pyLower bisaya) "karon" = false)
    (ht2 : strContains (pyLower bisaya) "ugma" = false)
    (ht3 : strContains (pyLower bisaya) "gahapon" = false)
    (ht4 : strContains (pyLower bisaya) "adlaw" = false)
    (hq : strContains (pyLower pos) "question" = false)
    (hq1 : strContains (pyLower bisaya) "asa" = false)
    (hq2 : strContains (pyLower bisaya) "unsa" = false)
    (hq3 : strContains (pyLower bisaya) "kamus-a" = false)
    (hq4 : strContains (pyLower bisaya) "ngano" = false) :
    generate_examples bisaya tagalog english pos category
      = defaultExamples bisaya tagalog english := by
  unfold generate_examples
  simp [hg1, hg2, hg3, hv, hv1, hv2, hv3, hv4, hv5, hn, ha1, ha2, hm, hm1, hm2, hm3,
    hm4, hm5, ht, ht1, ht2, ht3, ht4, hq, hq1, hq2, hq3, hq4]

/-- C7 witness: an unmatched tag and an untriggering word. -/
theorem C7_default_fallthrough_witness :
    generate_examples "lami" "" "delicious" "particle" ""
      = defaultExamples "lami" "" "delicious" :=
  C7_default_fallthrough "lami" "" "delicious" "particle" ""
    (by decide) (by decide) (by decide) (by decide) (by decide) (by decide) (by decide)
    (by decide) (by decide) (by decide) (by decide) (by decide) (by decide) (by decide)
    (by decide) (by decide) (by decide) (by decide) (by decide) (by decide) (by decide)
    (by decide) (by decide) (by decide) (by decide) (by decide) (by decide) (by decide)

/-- C10: an entry with non-empty source word and English gloss but an empty
`tagalog` field passes the skip check, contributes its row wherever it sits
in the metadata list, and its processing (dynamic view included) succeeds
with no exception; every generic template branch leaves all three Tagalog
components empty for such entries, while a special-cased word rule (here
"palihug") still emits its hard-coded Tagalog sentences. -/
theorem C10_empty_tagalog (e : Entry) (m₁ m₂ : List Entry)
    (htag : e.tagalog = "") (hb : e.bisaya ≠ "") (hen : e.english ≠ "") :
    keepEntry e = true ∧
    rowFor e ∈ csvData (m₁ ++ e :: m₂) ∧
    processEntryDyn ⟨.str e.bisaya, .str e.tagalog, .str e.english,
        .str e.pronunciation, .str e.pos⟩ = .ok (some (rowFor e)) ∧
    (∀ b en, tagParts (greetingGenericExamples b "" en) = ["", "", ""]) ∧
    (∀ b en, tagParts (verbGenericExamples b "" en) = ["", "", ""]) ∧
    (∀ b en, tagParts (nounPlainExamples b "" en) = ["", "", ""]) ∧
    (∀ b en, tagParts (adjectiveGenericExamples b "" en) = ["", "", ""]) ∧
    (∀ b en, tagParts (numberGenericExamples b "" en) = ["", "", ""]) ∧
    (∀ b en, tagParts (timeGenericExamples b "" en) = ["", "", ""]) ∧
    (∀ b en, tagParts (questionGenericExamples b "" en) = ["", "", ""]) ∧
    (∀ b en, tagParts (defaultExamples b "" en) = ["", "", ""]) ∧
    tagParts (generate_examples "Palihug" "" "please" "expression" "Common Phrases")
      = ["Pakiusap.", "Pakiusap, tulungan mo ako.",
         "Pakiusap, maaari mo ba akong tulungan ngayon?"] := by
  have hk : keepEntry e = true := by simp [keepEntry, truthy, hb, hen]
  refine ⟨hk, ?_, ?_, ?_, ?_, ?_, ?_, ?_, ?_, ?_, ?_, by decide⟩
  · rw [csvData_eq]
    refine List.mem_cons_of_mem _ (List.mem_map_of_mem rowFor ?_)
    exact List.mem_filter.2 ⟨by simp, hk⟩
  · simp [processEntryDyn, determineCategoryDyn, generateExamplesDyn, pyTruthy, pyStr,
      rowFor, htag, hb, hen]
  · intro b en
    simp [tagParts, greetingGenericExamples, make_example, truthy]
  · intro b en
    simp [tagParts, verbGenericExamples, make_example, truthy]
  · intro b en
    simp [tagParts, nounPlainExamples, make_example, truthy]
  · intro b en
    simp [tagParts, adjectiveGenericExamples, make_example, truthy]
  · intro b en
    simp [tagParts, numberGenericExamples, make_example, truthy]
  · intro b en
    simp [tagParts, timeGenericExamples, make_example, truthy]
  · intro b en
    simp [tagParts, questionGenericExamples, make_example, truthy]
  · intro b en
    by_cases h : strContains b " " = true <;>
      simp [tagParts, defaultExamples, h, make_example, truthy]

/-- C10 witness. -/
theorem C10_empty_tagalog_witness :
    keepEntry ⟨"lami", "", "delicious", "la-mi", "particle"⟩ = true :=
  (C10_empty_tagalog ⟨"lami", "", "delicious", "la-mi", "particle"⟩ [] []
    rfl (by decide) (by decide)).1

lemma fsRead_fsWrite (fs : FS) (p c q : String) :
    fsRead (fsWrite fs p c) q = if q = p then some c else fsRead fs q := by
  simp [fsRead, fsWrite, lookup_pyDictSet]

lemma locked_fsWrite (fs : FS) (p c : String) : (fsWrite fs p c).locked = fs.locked := rfl

lemma fsRead_remove (F : List (String × String)) (L : List String) (p q : String)
    (h : q ≠ p) :
    fsRead { files := F.filter (fun x => x.1 ≠ p), locked := L } q
      = fsRead { files := F, locked := L } q := by
  simp only [fsRead]
  exact lookup_filter_ne F p q h

lemma filter_pred_eq {β : Type} (p : String) :
    (fun x : String × β => decide (x.1 ≠ p)) = (fun x => !decide (x.1 = p)) := by
  funext x
  simp [decide_not]

lemma lookup_filter_ne2 {β : Type} (d : List (String × β)) (p q : String) (h : q ≠ p) :
    (d.filter (fun x => !decide (x.1 = p))).lookup q = d.lookup q := by
  rw [← filter_pred_eq]
  exact lookup_filter_ne d p q h

lemma lookup_filter_self2 {β : Type} (d : List (String × β)) (p : String) :
    (d.filter (fun x => !decide (x.1 = p))).lookup p = none := by
  rw [← filter_pred_eq]
  exact lookup_filter_self d p

/-- C3: the writer stores the fresh CSV at the temp path first; when the
destination is locked by another process (so replacing it raises
`PermissionError`), the run still finishes, reporting the temp path as the
outcome, with the temp file holding the new content and the original dataset
file unmodified and untruncated; when neither the destination nor its backup
is locked, the destination is replaced with the new content and the previous
dataset contents survive as the single rotating `.backup` copy. -/
theorem C3_locked_keeps_temp (fs0 : FS) (tempPath outputPath content : String)
    (hT : tempPath ≠ outputPath) (hTB : tempPath ≠ outputPath ++ ".backup") :
    (outputPath ∈ fs0.locked →
      (datasetWriter fs0 tempPath outputPath content).2 = .tempLeft tempPath ∧
      fsRead (datasetWriter fs0 tempPath outputPath content).1 tempPath = some content ∧
      fsRead (datasetWriter fs0 tempPath outputPath content).1 outputPath
        = fsRead fs0 outputPath) ∧
    (outputPath ∉ fs0.locked → (outputPath ++ ".backup") ∉ fs0.locked →
      (datasetWriter fs0 tempPath outputPath content).2 = .replaced ∧
      fsRead (datasetWriter fs0 tempPath outputPath content).1 outputPath = some content ∧
      ∀ old, fsRead fs0 outputPath = some old →
        fsRead (datasetWriter fs0 tempPath outputPath content).1 (outputPath ++ ".backup")
          = some old) := by
  have hT2 : outputPath ≠ tempPath := Ne.symm hT
  have hTB2 : outputPath ++ ".backup" ≠ tempPath := Ne.symm hTB
  have hBO : outputPath ++ ".backup" ≠ outputPath := append_backup_ne outputPath
  have hOB : outputPath ≠ outputPath ++ ".backup" := Ne.symm hBO
  constructor
  · intro hlock
    by_cases hex : fsExists (fsWrite fs0 tempPath content) outputPath = true <;>
      by_cases hbex : fsExists (fsWrite fs0 tempPath content) (outputPath ++ ".backup") = true <;>
        by_cases hbl : (outputPath ++ ".backup") ∈ fs0.locked <;>
          · simp only [datasetWriter, fsRemove, fsCopy, fsMove, locked_fsWrite, hex, hbex,
              hbl, hlock, eq_self_iff_true, if_true, if_false, not_false_eq_true,
              iff_false, iff_true, Bool.false_eq_true, Bool.true_eq_false]
            refine ⟨by trivial, ?_, ?_⟩ <;>
              simp [fsRead, fsWrite, lookup_pyDictSet, lookup_filter_ne, lookup_filter_self, lookup_filter_ne2, lookup_filter_self2,
                hT, hTB, hT2, hTB2, hBO, hOB]
  · intro hout hback
    by_cases hex : fsExists (fsWrite fs0 tempPath content) outputPath = true <;>
      by_cases hbex : fsExists (fsWrite fs0 tempPath content) (outputPath ++ ".backup") = true <;>
        · simp only [datasetWriter, fsRemove, fsCopy, fsMove, locked_fsWrite, hex, hbex,
            hout, hback, eq_self_iff_true, if_true, if_false, not_false_eq_true,
            iff_false, iff_true, Bool.false_eq_true, Bool.true_eq_false]
          refine ⟨by trivial, ?_, ?_⟩
          · simp [fsRead, fsWrite, lookup_pyDictSet, lookup_filter_ne, lookup_filter_self, lookup_filter_ne2, lookup_filter_self2,
              hT, hTB, hT2, hTB2, hBO, hOB]
          · intro old hold
            have hold' : fs0.files.lookup outputPath = some old := hold
            first
              | exact absurd (by
                  simp [fsExists, fsRead, fsWrite, lookup_pyDictSet, hT2, hold'] :
                    fsExists (fsWrite fs0 tempPath content) outputPath = true) hex
              | simp [fsRead, fsWrite, lookup_pyDictSet, lookup_filter_ne,
                  lookup_filter_self, lookup_filter_ne2, lookup_filter_self2,
                  hT, hTB, hT2, hTB2, hBO, hOB, hold']

/-- C3 witness: a locked destination holding the old dataset. -/
theorem C3_locked_keeps_temp_witness :
    (datasetWriter ⟨[("out.csv", "old")], ["out.csv"]⟩ "tmp.csv" "out.csv" "new").2
        = .tempLeft "tmp.csv" ∧
    fsRead (datasetWriter ⟨[("out.csv", "old")], ["out.csv"]⟩ "tmp.csv" "out.csv" "new").1
        "tmp.csv" = some "new" ∧
    fsRead (datasetWriter ⟨[("out.csv", "old")], ["out.csv"]⟩ "tmp.csv" "out.csv" "new").1
        "out.csv" = fsRead ⟨[("out.csv", "old")], ["out.csv"]⟩ "out.csv" :=
  (C3_locked_keeps_temp ⟨[("out.csv", "old")], ["out.csv"]⟩ "tmp.csv" "out.csv" "new"
    (by decide) (by decide)).1 (by decide)

lemma getD_zipWith_add :
    ∀ (a b : List ℚ) (i : Nat), i < a.length → i < b.length →
      (a.zipWith (· + ·) b).getD i 0 = a.getD i 0 + b.getD i 0 := by
  intro a
  induction a with
  | nil => intro b i hi _; simp at hi
  | cons x xs ih =>
    intro b i hia hib
    cases b with
    | nil => simp at hib
    | cons y ys =>
      cases i with
      | zero => simp
      | succ n =>
        simp only [List.zipWith_cons_cons, List.getD_cons_succ]
        exact ih ys n (Nat.lt_of_succ_lt_succ hia) (Nat.lt_of_succ_lt_succ hib)

lemma foldl_zipWith_spec (n : Nat) :
    ∀ (rest : List (List ℚ)) (v : List ℚ), v.length = n → (∀ u ∈ rest, u.length = n) →
      (rest.foldl (fun acc w => acc.zipWith (· + ·) w) v).length = n ∧
      ∀ i, i < n →
        (rest.foldl (fun acc w => acc.zipWith (· + ·) w) v).getD i 0
          = v.getD i 0 + (rest.map (fun u => u.getD i 0)).sum := by
  intro rest
  induction rest with
  | nil =>
    intro v hv _
    exact ⟨hv, fun i _ => by simp⟩
  | cons w t ih =>
    intro v hv hrest
    have hw : w.length = n := hrest w (List.mem_cons_self _ _)
    have hzip : (v.zipWith (· + ·) w).length = n := by
      rw [List.length_zipWith, hv, hw]
      exact Nat.min_self n
    have ht : ∀ u ∈ t, u.length = n := fun u hu => hrest u (List.mem_cons_of_mem _ hu)
    obtain ⟨hlen, hval⟩ := ih (v.zipWith (· + ·) w) hzip ht
    refine ⟨hlen, fun i hi => ?_⟩
    rw [List.foldl_cons, hval i hi,
      getD_zipWith_add v w i (hv ▸ hi) (hw ▸ hi), List.map_cons, List.sum_cons]
    ring

lemma getD_map_div (l : List ℚ) (n : ℚ) (i : Nat) (hi : i < l.length) :
    (l.map (fun x => x / n)).getD i 0 = l.getD i 0 / n := by
  rw [List.getD_eq_getElem?_getD, List.getD_eq_getElem?_getD, List.getElem?_map,
    List.getElem?_eq_getElem hi]
  rfl

/-- C8: the per-word embedding never fails on a vocabulary miss — if the
lowercased word is in the vocabulary its vector is used; otherwise, if some
whitespace-separated sub-words hit the vocabulary, the element-wise mean of
their vectors (componentwise sum divided by the hit count) is used;
otherwise the all-zeros vector of dimension 100. -/
theorem C8_embedding_fallback (wv : String → Option (List ℚ)) (w : String) :
    (∀ v, wv w = some v → getEmbedding wv w = v) ∧
    (wv w = none → (pySplit w).filterMap wv ≠ [] →
      getEmbedding wv w = vecMean ((pySplit w).filterMap wv)) ∧
    (wv w = none → (pySplit w).filterMap wv = [] →
      getEmbedding wv w = List.replicate 100 0) ∧
    (∀ vs : List (List ℚ), vs ≠ [] → (∀ v ∈ vs, v.length = 100) →
      (vecMean vs).length = 100 ∧
      ∀ i, i < 100 →
        (vecMean vs).getD i 0 = (vs.map (fun v => v.getD i 0)).sum / (vs.length : ℚ)) := by
  refine ⟨?_, ?_, ?_, ?_⟩
  · intro v h
    simp [getEmbedding, h]
  · intro h hne
    have : ((pySplit w).filterMap wv).isEmpty = false := by
      simpa [List.isEmpty_iff] using hne
    simp [getEmbedding, h, this]
  · intro h hnil
    simp [getEmbedding, h, hnil]
  · intro vs hne hlen
    obtain ⟨v, t, rfl⟩ : ∃ v t, vs = v :: t := by
      cases vs with
      | nil => exact absurd rfl hne
      | cons v t => exact ⟨v, t, rfl⟩
    have hv : v.length = 100 := hlen v (List.mem_cons_self _ _)
    have ht : ∀ u ∈ t, u.length = 100 := fun u hu => hlen u (List.mem_cons_of_mem _ hu)
    obtain ⟨hslen, hsval⟩ := foldl_zipWith_spec 100 t v hv ht
    have hsum : vecSum (v :: t) = t.foldl (fun acc w => acc.zipWith (· + ·) w) v := rfl
    constructor
    · simp [vecMean, hsum, hslen]
    · intro i hi
      rw [vecMean, hsum, getD_map_div _ _ i (by rw [hslen]; exact hi), hsval i hi,
        List.map_cons, List.sum_cons]

/-- C8 witness: a two-word phrase absent from the vocabulary whose sub-words
both hit it. -/
theorem C8_embedding_fallback_witness :
    getEmbedding c8wv "ka adlaw" = vecMean ((pySplit "ka adlaw").filterMap c8wv) :=
  (C8_embedding_fallback c8wv "ka adlaw").2.1 (by decide) (by decide)

lemma generate_embeddings_foldl (wv : String → Option (List ℚ)) :
    ∀ (df : List CsvRow) (d : List (String × List ℚ)) (m : List MetaEntry),
      df.foldl
        (fun acc row =>
          let bisaya := pyStrip (pyStrCell row.bisaya)
          if bisaya = "" || bisaya = "nan" then acc
          else
            let bisaya_lower := pyLower bisaya
            let embedding := getEmbedding wv bisaya_lower
            (pyDictSet acc.1 bisaya_lower embedding, acc.2 ++ [metaOf row bisaya]))
        (d, m)
      = (((df.filter keptRow).map (fun r => (keyOf r, getEmbedding wv (keyOf r)))).foldl
          (fun acc p => pyDictSet acc p.1 p.2) d,
        m ++ (df.filter keptRow).map (fun r => metaOf r (stripBisaya r))) := by
  intro df
  induction df with
  | nil => intro d m; simp
  | cons row t ih =>
    intro d m
    rw [List.foldl_cons, List.filter_cons]
    by_cases h : (pyStrip (pyStrCell row.bisaya) = "" || pyStrip (pyStrCell row.bisaya) = "nan")
      = true
    · have hk : keptRow row = false := by
        simp only [keptRow, stripBisaya, h, Bool.not_true]
      dsimp only
      rw [h, if_pos rfl, hk, if_neg Bool.false_ne_true]
      exact ih d m
    · have hf : (pyStrip (pyStrCell row.bisaya) = "" || pyStrip (pyStrCell row.bisaya) = "nan")
        = false := by
        cases hx : (pyStrip (pyStrCell row.bisaya) = ""
            || pyStrip (pyStrCell row.bisaya) = "nan") with
        | true => exact absurd hx h
        | false => rfl
      have hk : keptRow row = true := by
        simp only [keptRow, stripBisaya, hf, Bool.not_false]
      dsimp only
      rw [hf, if_neg Bool.false_ne_true, hk, if_pos rfl, List.map_cons, List.foldl_cons,
        ih]
      simp [keyOf, stripBisaya]

lemma generate_embeddings_eq (wv : String → Option (List ℚ)) (df : List CsvRow) :
    generate_embeddings wv df
      = (pyDictOf ((df.filter keptRow).map (fun r => (keyOf r, getEmbedding wv (keyOf r)))),
        (df.filter keptRow).map (fun r => metaOf r (stripBisaya r))) := by
  unfold generate_embeddings pyDictOf
  rw [generate_embeddings_foldl wv df [] []]
  simp

/-- C9 (amended): in the JSON bundle, `vocab_size` equals the number of keys
of the embeddings dict; those keys are exactly the distinct lowercased
values of the *stripped* Bisaya cells that are non-empty and not the literal
string `nan` after stripping; every key's stored vector is the embedding
computed from the key, so a later duplicate row overwrites the earlier row's
(equal) vector while the metadata list keeps one entry per kept row — hence
`vocab_size` can be strictly smaller than the metadata length, as the
concrete duplicated dataset in the last conjunct shows. -/
theorem C9_vocab_size (wv : String → Option (List ℚ)) (df : List CsvRow)
    (sim : List (String × List (String × ℚ))) :
    (save_model (generate_embeddings wv df).1 (generate_embeddings wv df).2 sim).vocab_size
        = (generate_embeddings wv df).1.length ∧
    (keysOf (generate_embeddings wv df).1).Nodup ∧
    (∀ k, k ∈ keysOf (generate_embeddings wv df).1
        ↔ k ∈ (df.filter keptRow).map keyOf) ∧
    (∀ k v, ((generate_embeddings wv df).1).lookup k = some v → v = getEmbedding wv k) ∧
    (generate_embeddings wv df).2 = (df.filter keptRow).map (fun r => metaOf r (stripBisaya r)) ∧
    (save_model (generate_embeddings c9wv c9df).1 (generate_embeddings c9wv c9df).2 []).vocab_size
      < (generate_embeddings c9wv c9df).2.length := by
  rw [generate_embeddings_eq wv df]
  refine ⟨rfl, nodup_keysOf_pyDictOf _, ?_, ?_, rfl, by decide⟩
  · intro k
    rw [mem_keysOf_pyDictOf]
    unfold keysOf
    rw [List.map_map]
    constructor
    · intro h
      simpa using h
    · intro h
      simpa using h
  · intro k v hkv
    have hval : ∀ p ∈ (df.filter keptRow).map (fun r => (keyOf r, getEmbedding wv (keyOf r))),
        p.2 = getEmbedding wv p.1 := by
      intro p hp
      obtain ⟨r, _, rfl⟩ := List.mem_map.1 hp
      rfl
    have := pyDictOf_valfun (getEmbedding wv) _ hval _ (lookup_mem _ _ _ hkv)
    simpa using this

/-- C9 counterexample: on a dataset whose two rows hold the cell strings
"Kumusta" and "kumusta " (trailing space), the code's `vocab_size` is 1 —
both cells strip-and-lowercase to one key — while the number of distinct
lowercased non-empty Bisaya cell values, the claim's stated characterisation,
is 2. -/
theorem C9_counterexample :
    (save_model (generate_embeddings c9wv c9df).1 (generate_embeddings c9wv c9df).2 []).vocab_size
        = 1 ∧
    distinctNonEmptyLowerCount c9df = 2 := by
  exact ⟨by decide, by decide⟩

/-- C9 witness: the stored vector for the surviving key is the embedding
computed from that key. -/
theorem C9_vocab_size_witness :
    List.replicate 100 (0 : ℚ) = getEmbedding c9wv "kumusta" :=
  (C9_vocab_size c9wv c9df []).2.2.2.1 "kumusta" (List.replicate 100 0) (by decide)

lemma topSimilarTable_eq (words : List String) (sim : Nat → Nat → ℚ) :
    topSimilarTable words sim
      = words.enum.foldl
          (fun acc iw =>
            pyDictSet acc iw.2
              (pyDictOf ((sortDesc ((words.enum.filter (fun jw => jw.1 ≠ iw.1)).map
                (fun jw => (jw.2, sim iw.1 jw.1)))).take 10)))
          [] := rfl

lemma topSimilarTable_map (words : List String) (sim : Nat → Nat → ℚ)
    (hnd : words.Nodup) :
    topSimilarTable words sim
      = words.enum.map (fun iw =>
          (iw.2, pyDictOf ((sortDesc ((words.enum.filter (fun jw => jw.1 ≠ iw.1)).map
            (fun jw => (jw.2, sim iw.1 jw.1)))).take 10))) := by
  rw [topSimilarTable_eq,
    foldl_pyDictSet_map (fun iw : Nat × String => iw.2)
      (fun iw : Nat × String =>
        pyDictOf ((sortDesc ((words.enum.filter (fun jw => jw.1 ≠ iw.1)).map
          (fun jw => (jw.2, sim iw.1 jw.1)))).take 10)) words.enum [],
    foldl_pyDictSet_nodup]
  · simp
  · have hthis : keysOf (words.enum.map (fun iw : Nat × String =>
        (iw.2, pyDictOf ((sortDesc ((words.enum.filter (fun jw => jw.1 ≠ iw.1)).map
          (fun jw => (jw.2, sim iw.1 jw.1)))).take 10)))) = words := by
      unfold keysOf
      rw [List.map_map]
      have hcomp : (Prod.fst ∘ fun iw : Nat × String =>
          (iw.2, pyDictOf ((sortDesc ((words.enum.filter (fun jw => jw.1 ≠ iw.1)).map
            (fun jw => (jw.2, sim iw.1 jw.1)))).take 10))) = Prod.snd := by
        funext x
        rfl
      rw [hcomp]
      exact List.enum_map_snd words
    rw [show keysOf ([] : List (String × List (String × ℚ))) = [] from rfl, hthis,
      List.nil_append]
    exact hnd

/-- C6 (amended): for any word list with no duplicates — as is the case for
the two JSON trainers, whose word lists are the distinct keys of the
embeddings dict — every entry of the similarity table has at most 10
neighbours, never contains the word itself, and is ordered by non-increasing
score.  (The TFLite trainer builds its word list per dataset row without
deduplication, and a duplicated word then appears in its own neighbour list:
see the counterexample.) -/
theorem C6_top10_neighbors (words : List String) (sim : Nat → Nat → ℚ)
    (hnd : words.Nodup) (w : String) (l : List (String × ℚ))
    (hl : (topSimilarTable words sim).lookup w = some l) :
    l.length ≤ 10 ∧ (∀ p ∈ l, p.1 ≠ w) ∧ l.Pairwise (fun a b => b.2 ≤ a.2) := by
  rw [topSimilarTable_map words sim hnd] at hl
  have hmem := lookup_mem _ _ _ hl
  obtain ⟨iw, hiw, heq⟩ := List.mem_map.1 hmem
  have hw : iw.2 = w := (Prod.mk.injEq _ _ _ _ ▸ heq).1
  have hl2 : pyDictOf ((sortDesc ((words.enum.filter (fun jw => jw.1 ≠ iw.1)).map
      (fun jw => (jw.2, sim iw.1 jw.1)))).take 10) = l := (Prod.mk.injEq _ _ _ _ ▸ heq).2
  have hkeys : ((((words.enum.filter (fun jw => jw.1 ≠ iw.1)).map
      (fun jw => (jw.2, sim iw.1 jw.1))).map Prod.fst)).Sublist words := by
    rw [List.map_map]
    have hf : ((words.enum.filter (fun jw => jw.1 ≠ iw.1)).map Prod.snd).Sublist
        (words.enum.map Prod.snd) := (List.filter_sublist _).map Prod.snd
    rw [List.enum_map_snd] at hf
    exact hf
  have hknd : ((((words.enum.filter (fun jw => jw.1 ≠ iw.1)).map
      (fun jw => (jw.2, sim iw.1 jw.1))).map Prod.fst)).Nodup := hkeys.nodup hnd
  have hperm := sortDesc_perm ((words.enum.filter (fun jw => jw.1 ≠ iw.1)).map
      (fun jw => (jw.2, sim iw.1 jw.1)))
  have hsnd : (((sortDesc ((words.enum.filter (fun jw => jw.1 ≠ iw.1)).map
      (fun jw => (jw.2, sim iw.1 jw.1)))).map Prod.fst)).Nodup :=
    ((hperm.map Prod.fst).nodup_iff).2 hknd
  have htake := List.take_sublist 10 (sortDesc ((words.enum.filter
      (fun jw => jw.1 ≠ iw.1)).map (fun jw => (jw.2, sim iw.1 jw.1))))
  have htnd : ((((sortDesc ((words.enum.filter (fun jw => jw.1 ≠ iw.1)).map
      (fun jw => (jw.2, sim iw.1 jw.1)))).take 10).map Prod.fst)).Nodup :=
    (htake.map Prod.fst).nodup hsnd
  have hdict : pyDictOf ((sortDesc ((words.enum.filter (fun jw => jw.1 ≠ iw.1)).map
      (fun jw => (jw.2, sim iw.1 jw.1)))).take 10)
      = (sortDesc ((words.enum.filter (fun jw => jw.1 ≠ iw.1)).map
        (fun jw => (jw.2, sim iw.1 jw.1)))).take 10 :=
    pyDictOf_eq_self _ htnd
  rw [hdict] at hl2
  subst hl2
  refine ⟨?_, ?_, ?_⟩
  · rw [List.length_take]
    exact Nat.min_le_left _ _
  · intro p hp
    have hp1 : p ∈ sortDesc ((words.enum.filter (fun jw => jw.1 ≠ iw.1)).map
        (fun jw => (jw.2, sim iw.1 jw.1))) := htake.mem hp
    have hp2 : p ∈ (words.enum.filter (fun jw => jw.1 ≠ iw.1)).map
        (fun jw => (jw.2, sim iw.1 jw.1)) := (mem_sortDesc _ _).1 hp1
    obtain ⟨jw, hjw, rfl⟩ := List.mem_map.1 hp2
    obtain ⟨hjmem, hjne⟩ := List.mem_filter.1 hjw
    have hjne' : jw.1 ≠ iw.1 := by simpa using hjne
    intro hcontra
    have hjget : words[jw.1]? = some jw.2 := List.mem_enum_iff_getElem?.1 hjmem
    have higet : words[iw.1]? = some iw.2 := List.mem_enum_iff_getElem?.1 hiw
    have : words[jw.1]? = words[iw.1]? := by
      rw [hjget, higet, hw]
      simpa using hcontra
    have hjlt : jw.1 < words.length := by
      by_contra hge
      rw [List.getElem?_eq_none (Nat.le_of_not_lt hge)] at hjget
      exact Option.noConfusion hjget
    exact hjne' (List.getElem?_inj hjlt hnd this)
  · exact List.Pairwise.sublist htake (sortDesc_pairwise _)

/-- C6 counterexample: the TFLite trainer's word list is built per row with
no deduplication, so a dataset containing the word "oo" twice (e.g. once as
"Oo") yields the word list ["oo", "oo"]; the resulting similarity table then
lists "oo" as its own sole neighbour — with similarity 1, the cosine of a
vector with its own copy — contradicting the claim for that trainer. -/
theorem C6_counterexample :
    tfliteWords c6wv c6df = ["oo", "oo"] ∧
    (topSimilarTable (tfliteWords c6wv c6df) c6sim).lookup "oo" = some [("oo", 1)] ∧
    ("oo", (1 : ℚ)) ∈ ((topSimilarTable (tfliteWords c6wv c6df) c6sim).lookup "oo").getD [] :=
  ⟨by decide, by decide, by decide⟩

/-- C6 witness: a duplicate-free two-word list. -/
theorem C6_top10_neighbors_witness :
    [("b", (1 : ℚ))].length ≤ 10 ∧ (∀ p ∈ [("b", (1 : ℚ))], p.1 ≠ "a") ∧
      List.Pairwise (fun a b : String × ℚ => b.2 ≤ a.2) [("b", (1 : ℚ))] :=
  C6_top10_neighbors ["a", "b"] (fun _ _ => 1) (by decide) "a" [("b", 1)] (by decide)
